import Mathlib

/-!
Shallow embedding of the Metro city-generation engine (the JavaScript
sources `src/unnamed/part_010` and `src/docs/metro-web.js`), together with
theorems settling the spec claims about it.

Modelling conventions:
- JS numbers are modelled as exact integers (`ℤ`/`ℕ`) and rationals (`ℚ`);
  every arithmetic operation the engine performs on the values relevant to
  the claims is exact in doubles or robust to rounding, so this is faithful.
- JS 32-bit coercion (`x & 0xffffffff`, `<<`) is `toInt32`.
- `Math.floor` is `jsFloor`, JS array indexing `a[i]` is `jsIndex`
  (`none` models `undefined`).
- Draw sequences are written as `let p := draw; ... p.1 ... p.2 ...` with
  `p.1` the drawn value and `p.2` the advanced generator, in the source's
  draw order.
- `Math.random()` (an ambient entropy source outside the seeded streams) is
  modelled as an explicit stream `ℕ → ℚ` consumed in call order, and the
  wall clock (`new Date().toISOString()`) as an explicit string parameter,
  so that dependence on them is visible in the types.
- Float transcendentals (`Math.PI`, `Math.cos`, `Math.sin`, `Math.sqrt`)
  are abstracted into a `FloatOracle` parameter; no claim depends on their
  values.
-/

namespace Metro

/-- JS `ToInt32`: reduce an integer to the signed 32-bit range, as performed
by `x & 0xffffffff` and by the `<<` operator. -/
def toInt32 (x : ℤ) : ℤ :=
  (x + 2147483648) % 4294967296 - 2147483648

/-- JS `Math.floor` on an exact rational. -/
def jsFloor (q : ℚ) : ℤ :=
  Rat.floor q

/-- JS array indexing `a[i]` with an integer index; `none` models
`undefined` (negative or out-of-range index). -/
def jsIndex {α : Type} (l : List α) (i : ℤ) : Option α :=
  if 0 ≤ i then l[i.toNat]? else none

/-- `SeededRandom` of `part_010`: a linear congruential generator on a
32-bit state, modulus 2^32 = 4294967296.  `seed` is the construction seed
(never mutated), `current` the evolving state. -/
structure SeededRandom where
  seed : ℕ
  current : ℕ
deriving DecidableEq, Repr

namespace SeededRandom

/-- `new SeededRandom(seed)`. -/
def mk' (seed : ℕ) : SeededRandom :=
  ⟨seed, seed⟩

/-- `next()`: `current = (current * 1664525 + 1013904223) % 4294967296;
return current / 4294967296`. -/
def next (r : SeededRandom) : ℚ × SeededRandom :=
  let c := (r.current * 1664525 + 1013904223) % 4294967296
  ((c : ℚ) / 4294967296, ⟨r.seed, c⟩)

/-- `uniform(min, max) = min + next() * (max - min)`. -/
def uniform (r : SeededRandom) (lo hi : ℚ) : ℚ × SeededRandom :=
  let p := r.next
  (lo + p.1 * (hi - lo), p.2)

/-- `choice(array) = array[Math.floor(next() * array.length)]`; on an empty
array the JS expression evaluates to `undefined`, here `none`. -/
def choice {α : Type} (r : SeededRandom) (l : List α) : Option α × SeededRandom :=
  let p := r.next
  (jsIndex l (jsFloor (p.1 * l.length)), p.2)

/-- `choice` at a call site where the JS array is a non-empty literal, so
the result is always an element; the default `d` is never returned for a
non-empty list (`choiceD_mem`). -/
def choiceD {α : Type} (r : SeededRandom) (l : List α) (d : α) : α × SeededRandom :=
  let p := r.choice l
  (p.1.getD d, p.2)

/-- `randint(min, max) = Math.floor(uniform(min, max + 1))`. -/
def randint (r : SeededRandom) (lo hi : ℤ) : ℤ × SeededRandom :=
  let p := r.uniform lo (hi + 1)
  (jsFloor p.1, p.2)

end SeededRandom

/-- Hierarchical seed derivation of `part_010`
(`HierarchicalSeedGenerator.generateSeed`): fold the key's characters into
a hash initialised to the master seed with
`hash = ((hash << 5) - hash + key.charCodeAt(i)) & 0xffffffff`, then
`Math.abs`. -/
def HierarchicalSeedGenerator.generateSeed (masterSeed : ℤ) (key : String) : ℕ :=
  (key.data.foldl
    (fun hash c => toInt32 (toInt32 (toInt32 hash * 32) - hash + (c.toNat : ℤ)))
    masterSeed).natAbs

/-- The spec's formulation of the per-character hash step, read as exact
integer arithmetic reduced to the signed 32-bit range: the fold of
`31 * hash + charCode` under `toInt32`.  Compared with the source-literal
`generateSeed` in the claim-3 theorem. -/
def specFoldHash (masterSeed : ℤ) (key : String) : ℤ :=
  key.data.foldl (fun hash c => toInt32 (31 * hash + (c.toNat : ℤ))) masterSeed

/-- Association-list lookup, modelling `Map.prototype.get`/`has`. -/
def cacheFind {α : Type} : List (String × α) → String → Option α
  | [], _ => none
  | (k, v) :: rest, key => if k = key then some v else cacheFind rest key

/-- The mutable state of `part_010`'s `HierarchicalSeedGenerator`: the master
seed and the `Map` of per-category RNGs. -/
structure HSGState where
  masterSeed : ℤ
  rngs : List (String × SeededRandom)

namespace HSGState

/-- `setMasterSeed(seed)`: store the seed and clear the RNG cache. -/
def setMasterSeed (_s : HSGState) (seed : ℤ) : HSGState :=
  ⟨seed, []⟩

/-- `getRNG(key)`: return the cached RNG for `key`, creating it from
`generateSeed(key)` on first use. -/
def getRNG (s : HSGState) (key : String) : SeededRandom × HSGState :=
  match cacheFind s.rngs key with
  | some r => (r, s)
  | none =>
      let r := SeededRandom.mk' (HierarchicalSeedGenerator.generateSeed s.masterSeed key)
      (r, ⟨s.masterSeed, (key, r) :: s.rngs⟩)

/-- Invariant of the RNG cache: every cached stream was constructed from the
sub-seed derived for its category under the current master seed. -/
def WF (s : HSGState) : Prop :=
  ∀ k r, (k, r) ∈ s.rngs → r.seed = HierarchicalSeedGenerator.generateSeed s.masterSeed k

end HSGState

namespace MetroWeb

/-- `metro-web.js` `HierarchicalSeedGenerator.simpleHash(str)`: the same
shift hash, initialised to 0. -/
def simpleHash (s : String) : ℤ :=
  s.data.foldl
    (fun hash c => toInt32 (toInt32 (toInt32 hash * 32) - hash + (c.toNat : ℤ)))
    0

/-- `metro-web.js` seed derivation (`getSeed`, cache aside):
`Math.abs(simpleHash(masterSeed.toString() + category)) % 2147483647`. -/
def getSeedPure (masterSeed : ℤ) (category : String) : ℕ :=
  (simpleHash (toString masterSeed ++ category)).natAbs % 2147483647

/-- The mutable state of `metro-web.js`'s `HierarchicalSeedGenerator`: the
master seed and the memoization `Map` from category to derived seed. -/
structure HSGWState where
  masterSeed : ℤ
  seedCache : List (String × ℕ)

/-- `setMasterSeed(seed)`: store the seed and clear the seed cache. -/
def HSGWState.setMasterSeed (_s : HSGWState) (seed : ℤ) : HSGWState :=
  ⟨seed, []⟩

/-- `getSeed(category)`: return the cached seed if present, else derive,
cache and return it. -/
def HSGWState.getSeed (s : HSGWState) (category : String) : ℕ × HSGWState :=
  match cacheFind s.seedCache category with
  | some v => (v, s)
  | none =>
      let v := getSeedPure s.masterSeed category
      (v, ⟨s.masterSeed, (category, v) :: s.seedCache⟩)

/-- Invariant of the seed cache: every cached entry is the value
`getSeedPure` derives under the current master seed. -/
def HSGWState.WF (s : HSGWState) : Prop :=
  ∀ k v, (k, v) ∈ s.seedCache → v = getSeedPure s.masterSeed k

/-- `SeededRandom` of `metro-web.js`: the same LCG constants but modulus
2147483647. -/
structure SeededRandomW where
  seed : ℕ
deriving DecidableEq, Repr

namespace SeededRandomW

/-- `next()`: `seed = (seed * 1664525 + 1013904223) % 2147483647;
return seed / 2147483647`. -/
def next (r : SeededRandomW) : ℚ × SeededRandomW :=
  let c := (r.seed * 1664525 + 1013904223) % 2147483647
  ((c : ℚ) / 2147483647, ⟨c⟩)

/-- `nextFloat(min, max) = min + next() * (max - min)`. -/
def nextFloat (r : SeededRandomW) (lo hi : ℚ) : ℚ × SeededRandomW :=
  let p := r.next
  (lo + p.1 * (hi - lo), p.2)

/-- `nextInt(min, max) = Math.floor(nextFloat(min, max + 1))`. -/
def nextInt (r : SeededRandomW) (lo hi : ℤ) : ℤ × SeededRandomW :=
  let p := r.nextFloat lo (hi + 1)
  (jsFloor p.1, p.2)

/-- Proof-layer abbreviation: the generator state after one draw (every
draw advances the state the same way, whatever is derived from it). -/
def step (r : SeededRandomW) : SeededRandomW :=
  r.next.2

end SeededRandomW

end MetroWeb

/-- A district of the static generator (`part_010` `simulateCity`). -/
structure District where
  id : String
  name : String
  x : ℚ
  y : ℚ
  size : ℚ
  type : String
  population : ℤ
deriving DecidableEq, Repr

/-- One aggregate entry of the `zones` object:
`{ count, area, population }`. -/
structure ZoneStat where
  count : ℕ
  area : ℚ
  population : ℤ
deriving DecidableEq, Repr

/-- The zero entry `{ count: 0, area: 0, population: 0 }`. -/
def ZoneStat.zero : ZoneStat :=
  ⟨0, 0, 0⟩

/-- The `zones` object of `part_010` `calculateZones` (four keys). -/
structure Zones where
  residential : ZoneStat
  commercial : ZoneStat
  industrial : ZoneStat
  mixed : ZoneStat
deriving DecidableEq, Repr

/-- A road object `{ type: 'road', x1, y1, x2, y2, width, importance }`. -/
structure Road where
  type : String
  x1 : ℚ
  y1 : ℚ
  x2 : ℚ
  y2 : ℚ
  width : ℚ
  importance : ℤ
deriving DecidableEq, Repr

/-- A service object `{ id, type, x, y, importance }`. -/
structure Service where
  id : String
  type : String
  x : ℚ
  y : ℚ
  importance : ℤ
deriving DecidableEq, Repr

/-- The static city snapshot built by `part_010` `simulateCity`. -/
structure City where
  population : ℤ
  area : ℚ
  districts : List District
  zones : Zones
  infrastructure : List Road
  services : List Service
deriving DecidableEq, Repr

namespace MetroCityGenerator

/-- JS `` `${s.charAt(0).toUpperCase() + s.slice(1)}` ``. -/
def capitalize (s : String) : String :=
  match s.data with
  | [] => ""
  | c :: rest => String.mk (c.toUpper :: rest)

/-- One iteration of the district loop of `simulateCity`: draw `x`, `y`,
`size` and a uniformly chosen type, and build the district record.
`total` is `numDistricts` (used for the per-district population). -/
def genDistrict (population : ℤ) (citySize : ℚ) (total : ℕ) (i : ℕ)
    (r : SeededRandom) : District × SeededRandom :=
  let px := r.uniform 0 citySize
  let py := px.2.uniform 0 citySize
  let ps := py.2.uniform (1/2) 2
  let pt := ps.2.choiceD ["residential", "commercial", "industrial", "mixed"] "residential"
  (⟨"district_" ++ toString i,
    capitalize pt.1 ++ " District " ++ toString (i + 1),
    px.1, py.1, ps.1, pt.1,
    jsFloor ((population : ℚ) / (total : ℚ))⟩, pt.2)

/-- The district loop of `simulateCity`, with `k` iterations left out of
`total`. -/
def genDistricts (population : ℤ) (citySize : ℚ) (total : ℕ) :
    ℕ → SeededRandom → List District × SeededRandom
  | 0, r => ([], r)
  | k + 1, r =>
      let p := genDistrict population citySize total (total - (k + 1)) r
      let q := genDistricts population citySize total k p.2
      (p.1 :: q.1, q.2)

/-- Bump one zone aggregate with a district's contribution. -/
def zoneBump (z : ZoneStat) (d : District) : ZoneStat :=
  ⟨z.count + 1, z.area + d.size, z.population + d.population⟩

/-- The body of the `districts.forEach` in `calculateZones`: bump the entry
keyed by the district's type, if the key exists. -/
def calculateZonesStep (z : Zones) (d : District) : Zones :=
  if d.type = "residential" then { z with residential := zoneBump z.residential d }
  else if d.type = "commercial" then { z with commercial := zoneBump z.commercial d }
  else if d.type = "industrial" then { z with industrial := zoneBump z.industrial d }
  else if d.type = "mixed" then { z with mixed := zoneBump z.mixed d }
  else z

/-- `calculateZones(districts)` of `part_010`. -/
def calculateZones (districts : List District) : Zones :=
  districts.foldl calculateZonesStep ⟨.zero, .zero, .zero, .zero⟩

/-- One iteration of the road loop of `generateInfrastructure`. -/
def genRoad (citySize : ℚ) (r : SeededRandom) : Road × SeededRandom :=
  let p1 := r.uniform 0 citySize
  let p2 := p1.2.uniform 0 citySize
  let p3 := p2.2.uniform 0 citySize
  let p4 := p3.2.uniform 0 citySize
  let pw := p4.2.uniform 5 15
  let pi_ := pw.2.randint 1 5
  (⟨"road", p1.1, p2.1, p3.1, p4.1, pw.1, pi_.1⟩, pi_.2)

/-- The 5-iteration road loop of `generateInfrastructure(citySize)`. -/
def genRoads (citySize : ℚ) : ℕ → SeededRandom → List Road × SeededRandom
  | 0, r => ([], r)
  | k + 1, r =>
      let p := genRoad citySize r
      let q := genRoads citySize k p.2
      (p.1 :: q.1, q.2)

/-- One iteration of the service loop of `generateServices`. -/
def genService (citySize : ℚ) (i : ℕ) (r : SeededRandom) : Service × SeededRandom :=
  let px := r.uniform 0 citySize
  let py := px.2.uniform 0 citySize
  let pt := py.2.choiceD ["hospital", "school", "police", "fire", "market"] "hospital"
  let pi_ := pt.2.randint 1 5
  (⟨"service_" ++ toString i, pt.1, px.1, py.1, pi_.1⟩, pi_.2)

/-- The service loop of `generateServices`, with `k` iterations left out of
`total`. -/
def genServices (citySize : ℚ) (total : ℕ) :
    ℕ → SeededRandom → List Service × SeededRandom
  | 0, r => ([], r)
  | k + 1, r =>
      let p := genService citySize (total - (k + 1)) r
      let q := genServices citySize total k p.2
      (p.1 :: q.1, q.2)

/-- `simulateCity(population, citySize)` of `part_010`, with the single
`'default'`-category stream passed explicitly.  No input validation is
performed by the source; the function is total. -/
def simulateCity (population : ℤ) (citySize : ℚ) (r : SeededRandom) : City :=
  let numDistricts := (max 1 (jsFloor ((population : ℚ) / 5000))).toNat
  let pd := genDistricts population citySize numDistricts numDistricts r
  let zones := calculateZones pd.1
  let pr := genRoads citySize 5 pd.2
  let numServices := (max 1 (jsFloor ((population : ℚ) / 10000))).toNat
  let psv := genServices citySize numServices numServices pr.2
  { population := population
    area := citySize * citySize
    districts := pd.1
    zones := zones
    infrastructure := pr.1
    services := psv.1 }

/-- `generateCity`: `setMasterSeed(masterSeed)` followed by `simulateCity`;
the `'default'` stream is created on first use from the derived sub-seed. -/
def generateCity (population : ℤ) (citySize : ℚ) (masterSeed : ℤ) : City :=
  simulateCity population citySize
    (SeededRandom.mk' (HierarchicalSeedGenerator.generateSeed masterSeed "default"))

end MetroCityGenerator

/-- Abstracted float transcendentals used by the source (`Math.PI`,
`Math.cos`, `Math.sin`, `Math.sqrt`).  No claim depends on their values, so
they are parameters of the embedding. -/
structure FloatOracle where
  pi : ℚ
  cos : ℚ → ℚ
  sin : ℚ → ℚ
  sqrt : ℚ → ℚ

/-- A fixed instantiation of the abstracted float transcendentals, used to
evaluate the embedding at concrete inputs (no claim depends on the values). -/
def trivialOracle : FloatOracle :=
  ⟨0, fun _ => 0, fun _ => 0, fun _ => 0⟩

/-- An era row of `simulateTemporalCity`'s hard-coded table.  `stop` is the
source's `end` field (a Lean keyword); `popLo`/`popHi` are the two entries
of the source's `population: [lo, hi]` array. -/
structure Era where
  name : String
  start : ℕ
  stop : ℕ
  popLo : ℤ
  popHi : ℤ
deriving DecidableEq, Repr

/-- The era table built inside `simulateTemporalCity`; the last row's upper
population bound is the caller's target population. -/
def metroEras (population : ℤ) : List Era :=
  [⟨"Founding", 0, 50, 100, 1000⟩,
   ⟨"Growth", 50, 200, 1000, 10000⟩,
   ⟨"Expansion", 200, 500, 10000, 50000⟩,
   ⟨"Modernization", 500, 1500, 50000, population⟩]

/-- `eras.find(e => year >= e.start && year < e.end) || eras[eras.length - 1]`:
the era whose `[start, stop)` window contains the year, defaulting to the
last era. -/
def eraFor (eras : List Era) (year : ℕ) : Era :=
  (eras.find? fun e => decide (e.start ≤ year ∧ year < e.stop)).getD
    (eras.getLastD ⟨"", 0, 0, 0, 0⟩)

/-- The district shape union of `generateDistrictShape` (each variant
carries the source's `centerX`/`centerY`, always 0). -/
inductive DistrictShape where
  | rectangle (width height centerX centerY : ℚ)
  | circle (radius centerX centerY : ℚ)
  | polygon (sides : ℤ) (radius rotation centerX centerY : ℚ)
deriving DecidableEq, Repr

/-- The final `switch (shapeType)` of `generateDistrictShape`: draw the
shape-specific parameters. -/
def mkShapeParams (O : FloatOracle) (shapeType : String) (size : ℚ)
    (r : SeededRandom) : DistrictShape × SeededRandom :=
  if shapeType = "circle" then (.circle (size / 2) 0 0, r)
  else if shapeType = "polygon" then
    let ps := r.randint 4 8
    let pr := ps.2.uniform 0 (2 * O.pi)
    (.polygon ps.1 (size / 2) pr.1 0 0, pr.2)
  else (.rectangle size size 0 0, r)

/-- `generateDistrictShape(era, districtType, size, rng)` of `part_010`,
with JS `&&` short-circuit evaluation of `rng.uniform()` draws preserved. -/
def generateDistrictShape (O : FloatOracle) (era districtType : String)
    (size : ℚ) (r : SeededRandom) : DistrictShape × SeededRandom :=
  if era = "Founding" then
    mkShapeParams O "rectangle" size r
  else if era = "Growth" then
    if districtType = "commercial" then
      let pu := r.uniform 0 1
      if pu.1 < 3/10 then mkShapeParams O "circle" size pu.2
      else mkShapeParams O "rectangle" size pu.2
    else mkShapeParams O "rectangle" size r
  else if era = "Expansion" then
    if districtType = "commercial" then
      let pu := r.uniform 0 1
      if pu.1 < 2/5 then mkShapeParams O "circle" size pu.2
      else
        let pc := pu.2.choiceD ["rectangle", "circle"] "rectangle"
        mkShapeParams O pc.1 size pc.2
    else if districtType = "industrial" then
      let pu := r.uniform 0 1
      if pu.1 < 1/5 then mkShapeParams O "polygon" size pu.2
      else
        let pc := pu.2.choiceD ["rectangle", "circle"] "rectangle"
        mkShapeParams O pc.1 size pc.2
    else
      let pc := r.choiceD ["rectangle", "circle"] "rectangle"
      mkShapeParams O pc.1 size pc.2
  else if era = "Modernization" then
    if districtType = "park" then
      let pc := r.choiceD ["circle", "polygon"] "circle"
      mkShapeParams O pc.1 size pc.2
    else if districtType = "commercial" then
      let pc := r.choiceD ["rectangle", "circle", "polygon"] "rectangle"
      mkShapeParams O pc.1 size pc.2
    else
      let pc := r.choiceD ["rectangle", "circle", "polygon"] "rectangle"
      mkShapeParams O pc.1 size pc.2
  else
    mkShapeParams O "rectangle" size r

/-- A district of the temporal generator (`generateDistrictsForEra`): the
static district fields plus the era-dependent `shape`. -/
structure TemporalDistrict where
  id : String
  name : String
  x : ℚ
  y : ℚ
  size : ℚ
  type : String
  shape : DistrictShape
  population : ℤ
deriving DecidableEq, Repr

/-- The `zones` object of `generateZonesForEra` (five keys, adding `park`). -/
structure Zones5 where
  residential : ZoneStat
  commercial : ZoneStat
  industrial : ZoneStat
  mixed : ZoneStat
  park : ZoneStat
deriving DecidableEq, Repr

namespace MetroCityGenerator

/-- The era-restricted district-type draw of `generateDistrictsForEra`:
the default is `'mixed'`; `Growth`/`Expansion` draw from three types,
`Modernization` from five. -/
def eraDistrictTypeDraw (era : String) (r : SeededRandom) : String × SeededRandom :=
  if era = "Growth" ∨ era = "Expansion" then
    r.choiceD ["residential", "commercial", "mixed"] "residential"
  else if era = "Modernization" then
    r.choiceD ["residential", "commercial", "industrial", "mixed", "park"] "residential"
  else ("mixed", r)

/-- One iteration of the district loop of `generateDistrictsForEra`:
position, size, the era-restricted type draw, and the shape. -/
def genTemporalDistrict (O : FloatOracle) (era : String) (population : ℤ)
    (citySize : ℚ) (total : ℕ) (i : ℕ) (r : SeededRandom) :
    TemporalDistrict × SeededRandom :=
  let px := r.uniform 0 citySize
  let py := px.2.uniform 0 citySize
  let ps := py.2.uniform (1/2) 2
  let pt := eraDistrictTypeDraw era ps.2
  let psh := generateDistrictShape O era pt.1 ps.1 pt.2
  (⟨"district_" ++ toString i,
    capitalize pt.1 ++ " District " ++ toString (i + 1),
    px.1, py.1, ps.1, pt.1, psh.1,
    jsFloor ((population : ℚ) / (total : ℚ))⟩, psh.2)

/-- The district loop of `generateDistrictsForEra`, with `k` iterations
left out of `total`. -/
def genTemporalDistricts (O : FloatOracle) (era : String) (population : ℤ)
    (citySize : ℚ) (total : ℕ) :
    ℕ → SeededRandom → List TemporalDistrict × SeededRandom
  | 0, r => ([], r)
  | k + 1, r =>
      let p := genTemporalDistrict O era population citySize total (total - (k + 1)) r
      let q := genTemporalDistricts O era population citySize total k p.2
      (p.1 :: q.1, q.2)

/-- `generateDistrictsForEra(era, population, citySize, rng)` of `part_010`,
with `numDistricts = Math.max(1, Math.floor(population / 5000))`. -/
def generateDistrictsForEra (O : FloatOracle) (era : String) (population : ℤ)
    (citySize : ℚ) (r : SeededRandom) : List TemporalDistrict × SeededRandom :=
  let numDistricts := (max 1 (jsFloor ((population : ℚ) / 5000))).toNat
  genTemporalDistricts O era population citySize numDistricts numDistricts r

/-- Bump one zone aggregate with a temporal district's contribution. -/
def zoneBump5 (z : ZoneStat) (d : TemporalDistrict) : ZoneStat :=
  ⟨z.count + 1, z.area + d.size, z.population + d.population⟩

/-- The body of the `districts.forEach` in `generateZonesForEra`. -/
def zonesForEraStep (z : Zones5) (d : TemporalDistrict) : Zones5 :=
  if d.type = "residential" then { z with residential := zoneBump5 z.residential d }
  else if d.type = "commercial" then { z with commercial := zoneBump5 z.commercial d }
  else if d.type = "industrial" then { z with industrial := zoneBump5 z.industrial d }
  else if d.type = "mixed" then { z with mixed := zoneBump5 z.mixed d }
  else if d.type = "park" then { z with park := zoneBump5 z.park d }
  else z

/-- `generateZonesForEra(era, districts, rng)` of `part_010`; the source
takes but never draws from `rng`. -/
def generateZonesForEra (_era : String) (districts : List TemporalDistrict)
    (_rng : SeededRandom) : Zones5 :=
  districts.foldl zonesForEraStep ⟨.zero, .zero, .zero, .zero, .zero⟩

/-- The 3-iteration secondary-road loop of the `Growth` branch of
`generateInfrastructureForEra`. -/
def genGrowthRoads (citySize : ℚ) : ℕ → SeededRandom → List Road × SeededRandom
  | 0, r => ([], r)
  | k + 1, r =>
      let px := r.uniform (citySize * (1/5)) (citySize * (4/5))
      let q := genGrowthRoads citySize k px.2
      (⟨"road", px.1, citySize * (1/10), px.1, citySize * (9/10), 15, 3⟩ :: q.1, q.2)

/-- `generateInfrastructureForEra(era, citySize, rng)` of `part_010`. -/
def generateInfrastructureForEra (O : FloatOracle) (era : String)
    (citySize : ℚ) (r : SeededRandom) : List Road × SeededRandom :=
  if era = "Founding" then
    ([⟨"road", citySize * (1/10), citySize * (1/2), citySize * (9/10), citySize * (1/2), 20, 5⟩,
      ⟨"road", citySize * (1/2), citySize * (1/10), citySize * (1/2), citySize * (9/10), 20, 5⟩], r)
  else if era = "Growth" then
    genGrowthRoads citySize 3 r
  else if era = "Expansion" then
    ([⟨"road", citySize * (1/10), citySize * (1/10), citySize * (9/10), citySize * (9/10), 18, 4⟩], r)
  else if era = "Modernization" then
    let cX := citySize / 2
    let cY := citySize / 2
    let radius := citySize * (3/10)
    ((List.range 8).map fun i =>
      let angle1 := ((i : ℚ) * 2 * O.pi) / 8
      let angle2 := (((i : ℚ) + 1) * 2 * O.pi) / 8
      ⟨"road", cX + radius * O.cos angle1, cY + radius * O.sin angle1,
               cX + radius * O.cos angle2, cY + radius * O.sin angle2, 16, 3⟩, r)
  else ([], r)

/-- The per-era service vocabulary of `generateServicesForEra`: the literal
candidate array of the matching branch (the final `else` covers
`Modernization` and any other era name). -/
def serviceTypesForEra (era : String) : List String :=
  if era = "Founding" then ["market", "temple"]
  else if era = "Growth" then ["hospital", "school", "market"]
  else if era = "Expansion" then ["hospital", "school", "police", "fire", "monument"]
  else ["hospital", "school", "police", "fire", "monument", "airport", "stadium"]

/-- One iteration of the service loop of `generateServicesForEra`. -/
def genTemporalService (era : String) (citySize : ℚ) (i : ℕ)
    (r : SeededRandom) : Service × SeededRandom :=
  let px := r.uniform 0 citySize
  let py := px.2.uniform 0 citySize
  let pt := py.2.choiceD (serviceTypesForEra era) "hospital"
  let pi_ := pt.2.randint 1 5
  (⟨"service_" ++ toString i, pt.1, px.1, py.1, pi_.1⟩, pi_.2)

/-- The service loop of `generateServicesForEra`, with `k` iterations left
out of `total`. -/
def genTemporalServices (era : String) (citySize : ℚ) (total : ℕ) :
    ℕ → SeededRandom → List Service × SeededRandom
  | 0, r => ([], r)
  | k + 1, r =>
      let p := genTemporalService era citySize (total - (k + 1)) r
      let q := genTemporalServices era citySize total k p.2
      (p.1 :: q.1, q.2)

/-- `generateServicesForEra(era, population, citySize, rng)` of `part_010`,
with `numServices = Math.max(1, Math.floor(population / 10000))`. -/
def generateServicesForEra (era : String) (population : ℤ) (citySize : ℚ)
    (r : SeededRandom) : List Service × SeededRandom :=
  let numServices := (max 1 (jsFloor ((population : ℚ) / 10000))).toNat
  genTemporalServices era citySize numServices numServices r

end MetroCityGenerator

/-- A per-year snapshot of the temporal generator
(`generateCityStateForYear`). -/
structure CityState where
  year : ℕ
  population : ℤ
  area : ℚ
  districts : List TemporalDistrict
  zones : Zones5
  infrastructure : List Road
  services : List Service
  era : String
deriving DecidableEq, Repr

namespace MetroCityGenerator

/-- `generateCityStateForYear(year, population, citySize, era)` of
`part_010`: a fresh stream for category `temporal.<year>` (the cache is
clear for it in the `simulateTemporalCity` flow), area
`Math.max(1, population / 5000)`, then districts, zones, infrastructure and
services in source order. -/
def generateCityStateForYear (O : FloatOracle) (masterSeed : ℤ) (year : ℕ)
    (population : ℤ) (citySize : ℚ) (era : String) : CityState :=
  let rng := SeededRandom.mk'
    (HierarchicalSeedGenerator.generateSeed masterSeed ("temporal." ++ toString year))
  let area := max 1 ((population : ℚ) / 5000)
  let pd := generateDistrictsForEra O era population citySize rng
  let zones := generateZonesForEra era pd.1 pd.2
  let pinf := generateInfrastructureForEra O era citySize pd.2
  let psv := generateServicesForEra era population citySize pinf.2
  ⟨year, population, area, pd.1, zones, pinf.1, psv.1, era⟩

end MetroCityGenerator

/-- A key point (landmark) of the temporal data. -/
structure KeyPoint where
  id : String
  name : String
  type : String
  year : ℕ
  importance : ℤ
  x : ℚ
  y : ℚ
deriving DecidableEq, Repr

/-- A row of the hand-authored `keyPointData` table. -/
structure KeyPointDatum where
  name : String
  type : String
  year : ℕ
  importance : ℤ
deriving DecidableEq, Repr

/-- The fixed `keyPointData` table of `generateKeyPoints`. -/
def keyPointData : List KeyPointDatum :=
  [⟨"Central Forum", "market", 0, 5⟩,
   ⟨"Temple of the City Gods", "religious", 10, 4⟩,
   ⟨"City Hall", "government", 50, 4⟩,
   ⟨"Grand Cathedral", "religious", 200, 5⟩,
   ⟨"Royal Palace", "government", 300, 5⟩,
   ⟨"Central Station", "transport", 800, 4⟩,
   ⟨"University Campus", "government", 1000, 4⟩,
   ⟨"Airport", "transport", 1200, 3⟩]

/-- JS `` `keypoint_${name.toLowerCase().replace(/\s+/g, '_')}` `` (all
table names use single spaces). -/
def keyPointId (n : String) : String :=
  "keypoint_" ++ String.mk (n.data.map fun c => if c = ' ' then '_' else c.toLower)

namespace MetroCityGenerator

/-- `generateKeyPoints(timeline)` of `part_010`: the source ignores
`timeline` and draws each `x`/`y` from `Math.random() * 10`; the ambient
`Math.random` stream is the explicit `ent`, consumed in call order (two
draws per table row). -/
def generateKeyPoints (ent : ℕ → ℚ) : List KeyPoint :=
  keyPointData.enum.map fun p =>
    ⟨keyPointId p.2.name, p.2.name, p.2.type, p.2.year, p.2.importance,
     ent (2 * p.1) * 10, ent (2 * p.1 + 1) * 10⟩

end MetroCityGenerator

/-- The `roman_grid` object of `simulateTemporalCity`. -/
structure RomanGrid where
  cardos : List (List ℚ)
  decumani : List (List ℚ)
  blocks : List (List ℚ)
deriving DecidableEq, Repr

/-- The `metadata` object of `simulateTemporalCity`. -/
structure TemporalMetadata where
  city_size : ℚ
  master_seed : ℤ
  total_years : ℕ
deriving DecidableEq, Repr

/-- The value returned by `simulateTemporalCity`. -/
structure TemporalData where
  timeline : List CityState
  key_points : List KeyPoint
  roman_grid : RomanGrid
  metadata : TemporalMetadata
deriving DecidableEq, Repr

namespace MetroCityGenerator

/-- `generateRomanGrid(citySize)` of `part_010`. -/
def generateRomanGrid (citySize : ℚ) : RomanGrid :=
  ⟨[[citySize / 2 - 10, 0, citySize / 2 + 10, citySize]],
   [[0, citySize / 2 - 10, citySize, citySize / 2 + 10]],
   []⟩

/-- The sampled years of the loop
`for (let year = 0; year <= 1500; year += 50)`; the fuel (1501) strictly
bounds the number of iterations, so the list is exactly the loop's years. -/
def temporalYearsLoop : ℕ → ℕ → List ℕ
  | 0, _ => []
  | fuel + 1, year =>
      if year ≤ 1500 then year :: temporalYearsLoop fuel (year + 50) else []

/-- The full sampled-year list of `simulateTemporalCity`. -/
def temporalYears : List ℕ :=
  temporalYearsLoop 1501 0

/-- The body of the timeline loop of `simulateTemporalCity` for one year:
era lookup, linear interpolation of the era's population range, cap at the
target population, then `generateCityStateForYear`. -/
def temporalStateAt (O : FloatOracle) (masterSeed : ℤ) (population : ℤ)
    (citySize : ℚ) (year : ℕ) : CityState :=
  let era := eraFor (metroEras population) year
  let progress : ℚ := ((year : ℚ) - (era.start : ℚ)) / ((era.stop : ℚ) - (era.start : ℚ))
  let eraPopulation := jsFloor ((era.popLo : ℚ) + ((era.popHi : ℚ) - (era.popLo : ℚ)) * progress)
  let actualPopulation := min eraPopulation population
  generateCityStateForYear O masterSeed year actualPopulation citySize era.name

/-- `simulateTemporalCity(population, citySize)` of `part_010` after
`setMasterSeed(masterSeed)`: each year's state uses its own
`temporal.<year>` stream (no cross-year stream state), then key points and
the Roman grid. -/
def simulateTemporalCity (O : FloatOracle) (ent : ℕ → ℚ) (population : ℤ)
    (citySize : ℚ) (masterSeed : ℤ) : TemporalData :=
  { timeline := temporalYears.map (temporalStateAt O masterSeed population citySize)
    key_points := generateKeyPoints ent
    roman_grid := generateRomanGrid citySize
    metadata := ⟨citySize, masterSeed, 1500⟩ }

end MetroCityGenerator

namespace MetroWeb

/-- The weight table of `metro-web.js` `selectZoneType`, in `Object.entries`
insertion order. -/
def zoneWeights : List (String × ℚ) :=
  [("Residential", 2/5), ("Commercial", 1/4), ("Industrial", 1/5), ("Mixed", 3/20)]

/-- The cumulative-weight loop of `selectZoneType`: return the first zone
whose cumulative weight is `>=` the draw, else `'Residential'`. -/
def selectZoneTypeGo (u : ℚ) : List (String × ℚ) → ℚ → String
  | [], _ => "Residential"
  | (z, w) :: rest, cumulative =>
      let c := cumulative + w
      if u ≤ c then z else selectZoneTypeGo u rest c

/-- `selectZoneType(rng)` of `metro-web.js`. -/
def selectZoneType (r : SeededRandomW) : String × SeededRandomW :=
  let p := r.nextFloat 0 1
  (selectZoneTypeGo p.1 zoneWeights 0, p.2)

/-- The `zones` object of `metro-web.js` `generateZones` (capitalized keys,
in source insertion order). -/
structure WebZones where
  commercialZ : ZoneStat
  residentialZ : ZoneStat
  industrialZ : ZoneStat
  mixedZ : ZoneStat
deriving DecidableEq, Repr

/-- The body of the zone loop of `generateZones`: a type draw, a size draw
and a population draw, bumping the drawn type's aggregate. -/
def genZoneStep (z : WebZones) (r : SeededRandomW) : WebZones × SeededRandomW :=
  let pt := selectZoneType r
  let psz := pt.2.nextFloat (1/2) 3
  let pp := psz.2.nextFloat 2000 8000
  let zonePopulation := jsFloor (psz.1 * pp.1)
  let bump := fun (s : ZoneStat) =>
    (⟨s.count + 1, s.area + psz.1, s.population + zonePopulation⟩ : ZoneStat)
  (if pt.1 = "Commercial" then { z with commercialZ := bump z.commercialZ }
   else if pt.1 = "Residential" then { z with residentialZ := bump z.residentialZ }
   else if pt.1 = "Industrial" then { z with industrialZ := bump z.industrialZ }
   else if pt.1 = "Mixed" then { z with mixedZ := bump z.mixedZ }
   else z, pp.2)

/-- The zone loop of `generateZones`. -/
def genZonesLoop : ℕ → WebZones → SeededRandomW → WebZones × SeededRandomW
  | 0, z, r => (z, r)
  | k + 1, z, r =>
      let p := genZoneStep z r
      genZonesLoop k p.1 p.2

/-- `generateZones(population, citySize)` of `metro-web.js`:
`totalZones = Math.floor(population / 5000) + rng.nextInt(5, 15)` zones
accumulated from a fresh `'zones'`-seeded stream. -/
def generateZones (masterSeed : ℤ) (population : ℤ) (_citySize : ℚ) : WebZones :=
  let rng : SeededRandomW := ⟨getSeedPure masterSeed "zones"⟩
  let pe := rng.nextInt 5 15
  let totalZones := (jsFloor ((population : ℚ) / 5000) + pe.1).toNat
  (genZonesLoop totalZones ⟨.zero, .zero, .zero, .zero⟩ pe.2).1

/-- A district of `metro-web.js` `generateDistricts` (numeric `id`, no
shape). -/
structure WebDistrict where
  id : ℕ
  name : String
  x : ℚ
  y : ℚ
  size : ℚ
  population : ℤ
  type : String
deriving DecidableEq, Repr

/-- The prefix table of `generateDistrictName` (9 entries). -/
def namePrefixes : List String :=
  ["North", "South", "East", "West", "Central", "Old", "New", "Upper", "Lower"]

/-- The suffix table of `generateDistrictName` (9 entries). -/
def nameSuffixes : List String :=
  ["Heights", "Hills", "Valley", "Park", "Square", "Plaza", "Center", "District", "Quarter"]

/-- `generateDistrictName(rng)`: note the source draws
`nextInt(0, list.length)`, whose inclusive upper bound is one past the last
index, so an out-of-range pick yields JS `undefined`, rendered
`"undefined"` by the template string. -/
def generateDistrictName (r : SeededRandomW) : String × SeededRandomW :=
  let pp := r.nextInt 0 9
  let ps := pp.2.nextInt 0 9
  (((jsIndex namePrefixes pp.1).getD "undefined") ++ " " ++
   ((jsIndex nameSuffixes ps.1).getD "undefined"), ps.2)

/-- One iteration of the district loop of `generateDistricts`, in source
field order: name (two draws), x, y, size, population (one draw), type
(one draw). -/
def genWebDistrict (population : ℤ) (citySize : ℚ) (districtCount : ℤ)
    (i : ℕ) (r : SeededRandomW) : WebDistrict × SeededRandomW :=
  let pn := generateDistrictName r
  let px := pn.2.nextFloat 0 citySize
  let py := px.2.nextFloat 0 citySize
  let psz := py.2.nextFloat 1 3
  let pf := psz.2.nextFloat (1/2) (3/2)
  let pop := jsFloor ((population : ℚ) / (districtCount : ℚ) * pf.1)
  let pt := selectZoneType pf.2
  (⟨i, pn.1, px.1, py.1, psz.1, pop, pt.1⟩, pt.2)

/-- The district loop of `generateDistricts`. -/
def genWebDistricts (population : ℤ) (citySize : ℚ) (districtCount : ℤ)
    (total : ℕ) : ℕ → SeededRandomW → List WebDistrict × SeededRandomW
  | 0, r => ([], r)
  | k + 1, r =>
      let p := genWebDistrict population citySize districtCount (total - (k + 1)) r
      let q := genWebDistricts population citySize districtCount total k p.2
      (p.1 :: q.1, q.2)

/-- `generateDistricts(population, citySize)` of `metro-web.js`:
`districtCount = Math.floor(Math.sqrt(population / 10000)) + 3` districts
from a fresh `'districts'`-seeded stream. -/
def generateDistricts (O : FloatOracle) (masterSeed : ℤ) (population : ℤ)
    (citySize : ℚ) : List WebDistrict :=
  let rng : SeededRandomW := ⟨getSeedPure masterSeed "districts"⟩
  let districtCount := jsFloor (O.sqrt ((population : ℚ) / 10000)) + 3
  (genWebDistricts population citySize districtCount districtCount.toNat
    districtCount.toNat rng).1

/-- A road of `metro-web.js` `generateRoads`
(`{x1, y1, x2, y2, width, type: 'arterial'}`). -/
structure WebRoad where
  x1 : ℚ
  y1 : ℚ
  x2 : ℚ
  y2 : ℚ
  width : ℚ
  type : String
deriving DecidableEq, Repr

/-- One iteration of the road loop of `generateRoads`: a branch draw, then
a horizontal or vertical arterial road. -/
def genWebRoad (citySize : ℚ) (r : SeededRandomW) : WebRoad × SeededRandomW :=
  let pu := r.nextFloat 0 1
  if pu.1 < 1/2 then
    let pa := pu.2.nextFloat 0 citySize
    let pb := pa.2.nextFloat 0 citySize
    let pw := pb.2.nextFloat 8 24
    (⟨0, pa.1, citySize, pb.1, pw.1, "arterial"⟩, pw.2)
  else
    let pa := pu.2.nextFloat 0 citySize
    let pb := pa.2.nextFloat 0 citySize
    let pw := pb.2.nextFloat 8 24
    (⟨pa.1, 0, pb.1, citySize, pw.1, "arterial"⟩, pw.2)

/-- The road loop of `generateRoads`. -/
def genWebRoads (citySize : ℚ) : ℕ → SeededRandomW → List WebRoad × SeededRandomW
  | 0, r => ([], r)
  | k + 1, r =>
      let p := genWebRoad citySize r
      let q := genWebRoads citySize k p.2
      (p.1 :: q.1, q.2)

/-- `generateRoads(citySize, rng)` of `metro-web.js`:
`roadCount = Math.floor(citySize / 2) + rng.nextInt(2, 8)`. -/
def generateRoads (citySize : ℚ) (r : SeededRandomW) : List WebRoad × SeededRandomW :=
  let pe := r.nextInt 2 8
  let roadCount := (jsFloor (citySize / 2) + pe.1).toNat
  genWebRoads citySize roadCount pe.2

/-- A point utility `{x, y, capacity}`. -/
structure UtilityStation where
  x : ℚ
  y : ℚ
  capacity : ℤ
deriving DecidableEq, Repr

/-- The element loop of one `Array.from({length: n}, ...)` utility array. -/
def genUtilityStations (citySize : ℚ) (lo hi : ℤ) :
    ℕ → SeededRandomW → List UtilityStation × SeededRandomW
  | 0, r => ([], r)
  | k + 1, r =>
      let px := r.nextFloat 0 citySize
      let py := px.2.nextFloat 0 citySize
      let pc := py.2.nextInt lo hi
      let q := genUtilityStations citySize lo hi k pc.2
      (⟨px.1, py.1, pc.1⟩ :: q.1, q.2)

/-- The `utilities` object `{powerStations, waterTreatment}`. -/
structure WebUtilities where
  powerStations : List UtilityStation
  waterTreatment : List UtilityStation
deriving DecidableEq, Repr

/-- `generateUtilities(citySize, rng)` of `metro-web.js` (each array's
length draw precedes its element draws). -/
def generateUtilities (citySize : ℚ) (r : SeededRandomW) : WebUtilities × SeededRandomW :=
  let pn := r.nextInt 1 4
  let pps := genUtilityStations citySize 100 500 pn.1.toNat pn.2
  let pm := pps.2.nextInt 1 3
  let pwt := genUtilityStations citySize 50 200 pm.1.toNat pm.2
  (⟨pps.1, pwt.1⟩, pwt.2)

/-- A hospital `{x, y, beds}`. -/
structure WebHospital where
  x : ℚ
  y : ℚ
  beds : ℤ
deriving DecidableEq, Repr

/-- A school `{x, y, capacity}`. -/
structure WebSchool where
  x : ℚ
  y : ℚ
  capacity : ℤ
deriving DecidableEq, Repr

/-- A police station `{x, y}`. -/
structure WebPoliceStation where
  x : ℚ
  y : ℚ
deriving DecidableEq, Repr

/-- The `services` object of `metro-web.js` `generateServices`: an object
keyed by sub-type, each value a list — not a flat list. -/
structure WebServices where
  hospitals : List WebHospital
  schools : List WebSchool
  policeStations : List WebPoliceStation
deriving DecidableEq, Repr

/-- The hospital element loop. -/
def genWebHospitals (citySize : ℚ) :
    ℕ → SeededRandomW → List WebHospital × SeededRandomW
  | 0, r => ([], r)
  | k + 1, r =>
      let px := r.nextFloat 0 citySize
      let py := px.2.nextFloat 0 citySize
      let pb := py.2.nextInt 50 300
      let q := genWebHospitals citySize k pb.2
      (⟨px.1, py.1, pb.1⟩ :: q.1, q.2)

/-- The school element loop. -/
def genWebSchools (citySize : ℚ) :
    ℕ → SeededRandomW → List WebSchool × SeededRandomW
  | 0, r => ([], r)
  | k + 1, r =>
      let px := r.nextFloat 0 citySize
      let py := px.2.nextFloat 0 citySize
      let pc := py.2.nextInt 200 1000
      let q := genWebSchools citySize k pc.2
      (⟨px.1, py.1, pc.1⟩ :: q.1, q.2)

/-- The police-station element loop. -/
def genWebPolice (citySize : ℚ) :
    ℕ → SeededRandomW → List WebPoliceStation × SeededRandomW
  | 0, r => ([], r)
  | k + 1, r =>
      let px := r.nextFloat 0 citySize
      let py := px.2.nextFloat 0 citySize
      let q := genWebPolice citySize k py.2
      (⟨px.1, py.1⟩ :: q.1, q.2)

/-- `generateServices(citySize, rng)` of `metro-web.js`: builds the
sub-type-keyed object. -/
def generateServices (citySize : ℚ) (r : SeededRandomW) : WebServices × SeededRandomW :=
  let pnh := r.nextInt 1 3
  let phs := genWebHospitals citySize pnh.1.toNat pnh.2
  let pns := phs.2.nextInt 2 6
  let pss := genWebSchools citySize pns.1.toNat pns.2
  let pnp := pss.2.nextInt 1 4
  let pps := genWebPolice citySize pnp.1.toNat pnp.2
  (⟨phs.1, pss.1, pps.1⟩, pps.2)

/-- The `infrastructure` object `{roads, utilities, services}`. -/
structure WebInfrastructure where
  roads : List WebRoad
  utilities : WebUtilities
  services : WebServices
deriving DecidableEq, Repr

/-- `generateInfrastructure(population, citySize)` of `metro-web.js`: one
`'infrastructure'`-seeded stream threaded through roads, utilities and
services; the population argument is unused by the source. -/
def generateInfrastructure (masterSeed : ℤ) (_population : ℤ) (citySize : ℚ) :
    WebInfrastructure :=
  let rng : SeededRandomW := ⟨getSeedPure masterSeed "infrastructure"⟩
  let pr := generateRoads citySize rng
  let pu := generateUtilities citySize pr.2
  let ps := generateServices citySize pu.2
  ⟨pr.1, pu.1, ps.1⟩

/-- The `ageDistribution` object of `generateDemographics`. -/
structure AgeGroups where
  age0to17 : ℤ
  age18to34 : ℤ
  age35to54 : ℤ
  age55to64 : ℤ
  age65plus : ℤ
deriving DecidableEq, Repr

/-- The `incomeDistribution` object of `generateDemographics`. -/
structure IncomeGroups where
  low : ℤ
  medium : ℤ
  high : ℤ
deriving DecidableEq, Repr

/-- The `demographics` object. -/
structure WebDemographics where
  ageDistribution : AgeGroups
  incomeDistribution : IncomeGroups
deriving DecidableEq, Repr

/-- `generateDemographics(population)` of `metro-web.js` (the derived
`demographics` stream is created but never drawn from). -/
def generateDemographics (population : ℤ) : WebDemographics :=
  ⟨⟨jsFloor ((population : ℚ) * (22/100)), jsFloor ((population : ℚ) * (1/4)),
    jsFloor ((population : ℚ) * (28/100)), jsFloor ((population : ℚ) * (3/20)),
    jsFloor ((population : ℚ) * (1/10))⟩,
   ⟨jsFloor ((population : ℚ) * (3/10)), jsFloor ((population : ℚ) * (1/2)),
    jsFloor ((population : ℚ) * (1/5))⟩⟩

/-- The snapshot built by `metro-web.js` `generateFallbackCity`. -/
structure FallbackCity where
  population : ℤ
  area : ℚ
  density : ℚ
  zones : WebZones
  districts : List WebDistrict
  infrastructure : WebInfrastructure
  demographics : WebDemographics
  seed : ℤ
  generatedAt : String
deriving DecidableEq, Repr

/-- `generateFallbackCity(targetPopulation, citySize)` of `metro-web.js`
after `setMasterSeed(masterSeed)`; `clock` is the ambient wall-clock value
the source stores via `new Date().toISOString()`. -/
def generateFallbackCity (O : FloatOracle) (clock : String) (masterSeed : ℤ)
    (targetPopulation : ℤ) (citySize : ℚ) : FallbackCity :=
  { population := targetPopulation
    area := citySize * citySize
    density := (targetPopulation : ℚ) / (citySize * citySize)
    zones := generateZones masterSeed targetPopulation citySize
    districts := generateDistricts O masterSeed targetPopulation citySize
    infrastructure := generateInfrastructure masterSeed targetPopulation citySize
    demographics := generateDemographics targetPopulation
    seed := masterSeed
    generatedAt := clock }

end MetroWeb

lemma jsIndex_mem {α : Type} {l : List α} {i : ℤ} {a : α}
    (h : jsIndex l i = some a) : a ∈ l := by
  unfold jsIndex at h
  split at h
  · have hi : i.toNat < l.length := by
      by_contra hc
      push_neg at hc
      simp [List.getElem?_eq_none hc] at h
    rw [List.getElem?_eq_getElem hi] at h
    cases h
    exact List.getElem_mem hi
  · exact absurd h (by simp)

lemma SeededRandom.next_fst_nonneg (r : SeededRandom) : 0 ≤ r.next.1 := by
  unfold SeededRandom.next
  positivity

lemma SeededRandom.next_fst_lt_one (r : SeededRandom) : r.next.1 < 1 := by
  unfold SeededRandom.next
  simp only
  rw [div_lt_one (by norm_num)]
  exact_mod_cast Nat.mod_lt _ (by norm_num)

lemma jsFloor_eq_intFloor (q : ℚ) : jsFloor q = ⌊q⌋ :=
  rfl

lemma jsFloor_nonneg {q : ℚ} (h : 0 ≤ q) : 0 ≤ jsFloor q :=
  Rat.le_floor.mpr (by exact_mod_cast h)

lemma jsFloor_lt_of_lt {q : ℚ} {n : ℤ} (h : q < (n : ℚ)) : jsFloor q < n := by
  by_contra hc
  push_neg at hc
  have : (n : ℚ) ≤ q := le_trans (by exact_mod_cast hc) (Rat.le_floor.mp le_rfl)
  linarith

/-- On a non-empty list, `choice` returns the element at index
`Math.floor(next() * length)`, which is always in range. -/
lemma SeededRandom.choice_eq_some {α : Type} (r : SeededRandom) (l : List α)
    (hl : l ≠ []) :
    ∃ (h : (jsFloor (r.next.1 * l.length)).toNat < l.length),
      (r.choice l).1 = some (l.get ⟨(jsFloor (r.next.1 * l.length)).toNat, h⟩) := by
  have hlen : 0 < l.length := List.length_pos.mpr hl
  have h0 : (0 : ℚ) ≤ r.next.1 * l.length := by
    have := r.next_fst_nonneg
    positivity
  have hge : 0 ≤ jsFloor (r.next.1 * l.length) := jsFloor_nonneg h0
  have hlt : jsFloor (r.next.1 * l.length) < (l.length : ℤ) := by
    apply jsFloor_lt_of_lt
    have h1 := r.next_fst_lt_one
    have h2 := r.next_fst_nonneg
    have : r.next.1 * (l.length : ℚ) < 1 * (l.length : ℚ) := by
      apply mul_lt_mul_of_pos_right h1
      exact_mod_cast hlen
    simpa using this
  have hidx : (jsFloor (r.next.1 * l.length)).toNat < l.length := by omega
  refine ⟨hidx, ?_⟩
  unfold SeededRandom.choice jsIndex
  simp only [if_pos hge]
  rw [List.getElem?_eq_getElem hidx]
  rfl

/-- On a non-empty list, `choiceD` returns an element of the list (the JS
`undefined` fallback is unreachable). -/
lemma SeededRandom.choiceD_mem {α : Type} (r : SeededRandom) (l : List α)
    (d : α) (hl : l ≠ []) : (r.choiceD l d).1 ∈ l := by
  obtain ⟨h, he⟩ := r.choice_eq_some l hl
  unfold SeededRandom.choiceD
  simp only [he, Option.getD_some]
  exact List.get_mem l _ h

/-- Every district built by the static district loop has one of the four
literal zone types. -/
lemma MetroCityGenerator.genDistricts_types (population : ℤ) (citySize : ℚ)
    (total : ℕ) :
    ∀ (k : ℕ) (r : SeededRandom),
      ∀ d ∈ (MetroCityGenerator.genDistricts population citySize total k r).1,
        d.type ∈ (["residential", "commercial", "industrial", "mixed"] : List String) := by
  intro k
  induction k with
  | zero => intro r d hd; simp [MetroCityGenerator.genDistricts] at hd
  | succ n ih =>
      intro r d hd
      rw [MetroCityGenerator.genDistricts] at hd
      simp only [List.mem_cons] at hd
      rcases hd with hd | hd
      · subst hd
        exact SeededRandom.choiceD_mem _ _ _ (by simp)
      · exact ih _ _ hd

/-- The static district loop produces exactly `k` districts. -/
lemma MetroCityGenerator.genDistricts_length (population : ℤ) (citySize : ℚ)
    (total : ℕ) :
    ∀ (k : ℕ) (r : SeededRandom),
      (MetroCityGenerator.genDistricts population citySize total k r).1.length = k := by
  intro k
  induction k with
  | zero => intro r; simp [MetroCityGenerator.genDistricts]
  | succ n ih =>
      intro r
      rw [MetroCityGenerator.genDistricts]
      simp [ih]

/-- The temporal district loop produces exactly `k` districts. -/
lemma MetroCityGenerator.genTemporalDistricts_length (O : FloatOracle)
    (era : String) (population : ℤ) (citySize : ℚ) (total : ℕ) :
    ∀ (k : ℕ) (r : SeededRandom),
      (MetroCityGenerator.genTemporalDistricts O era population citySize total k r).1.length = k := by
  intro k
  induction k with
  | zero => intro r; simp [MetroCityGenerator.genTemporalDistricts]
  | succ n ih =>
      intro r
      rw [MetroCityGenerator.genTemporalDistricts]
      simp [ih]

/-- Every era's service vocabulary contains at least one element and, in
particular, always a usable default check: the vocabulary is non-empty. -/
lemma MetroCityGenerator.serviceTypesForEra_ne_nil (era : String) :
    MetroCityGenerator.serviceTypesForEra era ≠ [] := by
  unfold MetroCityGenerator.serviceTypesForEra
  split_ifs <;> simp

/-- Every service built by the per-era service loop has a type from that
era's vocabulary. -/
lemma MetroCityGenerator.genTemporalServices_types (era : String)
    (citySize : ℚ) (total : ℕ) :
    ∀ (k : ℕ) (r : SeededRandom),
      ∀ s ∈ (MetroCityGenerator.genTemporalServices era citySize total k r).1,
        s.type ∈ MetroCityGenerator.serviceTypesForEra era := by
  intro k
  induction k with
  | zero => intro r s hs; simp [MetroCityGenerator.genTemporalServices] at hs
  | succ n ih =>
      intro r s hs
      rw [MetroCityGenerator.genTemporalServices] at hs
      simp only [List.mem_cons] at hs
      rcases hs with hs | hs
      · subst hs
        exact SeededRandom.choiceD_mem _ _ _ (MetroCityGenerator.serviceTypesForEra_ne_nil era)
      · exact ih _ _ hs

/-- A minimal JSON value model, for stating the serialized data shapes
(`JSON.stringify` of the engine's output). -/
inductive Json where
  | num (q : ℚ)
  | str (s : String)
  | arr (items : List Json)
  | obj (fields : List (String × Json))

/-- Whether a JSON value is an array. -/
def Json.isArr : Json → Bool
  | .arr _ => true
  | _ => false

/-- The top-level keys of a JSON object (empty for non-objects). -/
def Json.topKeys : Json → List String
  | .obj fields => fields.map Prod.fst
  | _ => []

/-- Whether every element of a JSON array is an object carrying numeric
fields named `x` and `y` (the shape the spec requires of serialized
services); false for any non-array. -/
def Json.isPointList : Json → Bool
  | .arr items =>
      items.all fun j =>
        match j with
        | .obj fields =>
            (fields.any fun f => match f with | ("x", .num _) => true | _ => false) &&
            (fields.any fun f => match f with | ("y", .num _) => true | _ => false)
        | _ => false
  | _ => false

/-- Serialization of a `part_010` service, in source field order. -/
def Service.toJson (s : Service) : Json :=
  .obj [("id", .str s.id), ("type", .str s.type), ("x", .num s.x), ("y", .num s.y),
        ("importance", .num (s.importance : ℚ))]

/-- Serialization of a `part_010` road. -/
def Road.toJson (r : Road) : Json :=
  .obj [("type", .str r.type), ("x1", .num r.x1), ("y1", .num r.y1),
        ("x2", .num r.x2), ("y2", .num r.y2), ("width", .num r.width),
        ("importance", .num (r.importance : ℚ))]

namespace MetroWeb

/-- Serialization of the `metro-web.js` `services` object: a JSON object
keyed by sub-type, in source insertion order. -/
def WebServices.toJson (s : WebServices) : Json :=
  .obj [("hospitals", .arr (s.hospitals.map fun h =>
           .obj [("x", .num h.x), ("y", .num h.y), ("beds", .num (h.beds : ℚ))])),
        ("schools", .arr (s.schools.map fun sc =>
           .obj [("x", .num sc.x), ("y", .num sc.y), ("capacity", .num (sc.capacity : ℚ))])),
        ("policeStations", .arr (s.policeStations.map fun p =>
           .obj [("x", .num p.x), ("y", .num p.y)]))]

end MetroWeb

/-- A road generation step advances the stream by exactly four draws in
either branch. -/
lemma MetroWeb.genWebRoad_snd (cs : ℚ) (r : MetroWeb.SeededRandomW) :
    (MetroWeb.genWebRoad cs r).2 = r.step.step.step.step := by
  simp only [MetroWeb.genWebRoad]
  rcases em ((r.nextFloat 0 1).1 < 1/2) with h | h
  · rw [if_pos h]; rfl
  · rw [if_neg h]; rfl

/-- The hospital loop produces exactly `k` hospitals. -/
lemma MetroWeb.genWebHospitals_length (cs : ℚ) :
    ∀ (k : ℕ) (r : MetroWeb.SeededRandomW),
      (MetroWeb.genWebHospitals cs k r).1.length = k := by
  intro k
  induction k with
  | zero => intro r; simp [MetroWeb.genWebHospitals]
  | succ n ih =>
      intro r
      rw [MetroWeb.genWebHospitals]
      simp [ih]

/-- The school loop produces exactly `k` schools. -/
lemma MetroWeb.genWebSchools_length (cs : ℚ) :
    ∀ (k : ℕ) (r : MetroWeb.SeededRandomW),
      (MetroWeb.genWebSchools cs k r).1.length = k := by
  intro k
  induction k with
  | zero => intro r; simp [MetroWeb.genWebSchools]
  | succ n ih =>
      intro r
      rw [MetroWeb.genWebSchools]
      simp [ih]

/-- The police-station loop produces exactly `k` stations. -/
lemma MetroWeb.genWebPolice_length (cs : ℚ) :
    ∀ (k : ℕ) (r : MetroWeb.SeededRandomW),
      (MetroWeb.genWebPolice cs k r).1.length = k := by
  intro k
  induction k with
  | zero => intro r; simp [MetroWeb.genWebPolice]
  | succ n ih =>
      intro r
      rw [MetroWeb.genWebPolice]
      simp [ih]

lemma MetroCityGenerator.generateCityStateForYear_area (O : FloatOracle)
    (masterSeed : ℤ) (year : ℕ) (population : ℤ) (citySize : ℚ) (era : String) :
    (MetroCityGenerator.generateCityStateForYear O masterSeed year population citySize era).area
      = max 1 ((population : ℚ) / 5000) :=
  rfl

lemma MetroCityGenerator.temporalStateAt_year (O : FloatOracle) (masterSeed : ℤ)
    (population : ℤ) (citySize : ℚ) (year : ℕ) :
    (MetroCityGenerator.temporalStateAt O masterSeed population citySize year).year = year :=
  rfl

lemma MetroCityGenerator.temporalStateAt_era (O : FloatOracle) (masterSeed : ℤ)
    (population : ℤ) (citySize : ℚ) (year : ℕ) :
    (MetroCityGenerator.temporalStateAt O masterSeed population citySize year).era
      = (eraFor (metroEras population) year).name :=
  rfl

lemma MetroCityGenerator.simulateTemporalCity_timeline (O : FloatOracle)
    (ent : ℕ → ℚ) (population : ℤ) (citySize : ℚ) (masterSeed : ℤ) :
    (MetroCityGenerator.simulateTemporalCity O ent population citySize masterSeed).timeline
      = MetroCityGenerator.temporalYears.map
          (MetroCityGenerator.temporalStateAt O masterSeed population citySize) :=
  rfl

lemma MetroCityGenerator.simulateTemporalCity_key_points (O : FloatOracle)
    (ent : ℕ → ℚ) (population : ℤ) (citySize : ℚ) (masterSeed : ℤ) :
    (MetroCityGenerator.simulateTemporalCity O ent population citySize masterSeed).key_points
      = MetroCityGenerator.generateKeyPoints ent :=
  rfl

lemma eraFor_metroEras_1500 (p : ℤ) :
    eraFor (metroEras p) 1500 = ⟨"Modernization", 500, 1500, 50000, p⟩ :=
  rfl

lemma jsIndex_nil {α : Type} (i : ℤ) : jsIndex ([] : List α) i = none := by
  unfold jsIndex
  split <;> rfl

lemma toInt32_step_eq (h c : ℤ) :
    toInt32 (toInt32 (toInt32 h * 32) - h + c) = toInt32 (31 * h + c) := by
  unfold toInt32
  omega

lemma foldl_hash_eq (cs : List Char) :
    ∀ m : ℤ,
      cs.foldl (fun hash c => toInt32 (toInt32 (toInt32 hash * 32) - hash + (c.toNat : ℤ))) m
        = cs.foldl (fun hash c => toInt32 (31 * hash + (c.toNat : ℤ))) m := by
  induction cs with
  | nil => intro m; rfl
  | cons c rest ih =>
      intro m
      simp only [List.foldl_cons]
      rw [toInt32_step_eq]
      exact ih _

lemma cacheFind_mem {α : Type} :
    ∀ {l : List (String × α)} {key : String} {v : α},
      cacheFind l key = some v → (key, v) ∈ l := by
  intro l
  induction l with
  | nil => intro key v h; simp [cacheFind] at h
  | cons kv rest ih =>
      intro key v h
      obtain ⟨k, w⟩ := kv
      unfold cacheFind at h
      split_ifs at h with hk
      · cases h; cases hk; exact List.mem_cons_self _ _
      · exact List.mem_cons_of_mem _ (ih h)

/-- C3: `deriveSeed` is a pure function of `(masterSeed, category)`: the
source-literal character fold (`((hash << 5) - hash + charCode) &
0xffffffff` under JS int32 semantics) agrees with the spec's formula read
as `31 * hash + charCode` reduced to the signed 32-bit range, with the
non-negative magnitude taken at the end; and in both hierarchical seed
generators the memoization caches never change the returned value: under
the cache invariant `WF` (restored by `setMasterSeed`, preserved by every
lookup) the stateful `getSeed`/`getRNG` always return exactly the pure
derivation for the current master seed. -/
theorem claim3_deriveSeed_pure_and_cache_stable :
    (∀ (m : ℤ) (key : String),
        HierarchicalSeedGenerator.generateSeed m key = (specFoldHash m key).natAbs)
    ∧ (∀ (s : MetroWeb.HSGWState) (cat : String), s.WF →
          (s.getSeed cat).1 = MetroWeb.getSeedPure s.masterSeed cat
          ∧ (s.getSeed cat).2.WF ∧ (s.getSeed cat).2.masterSeed = s.masterSeed)
    ∧ (∀ (s : HSGState) (key : String), s.WF →
          (s.getRNG key).1.seed = HierarchicalSeedGenerator.generateSeed s.masterSeed key
          ∧ (s.getRNG key).2.WF ∧ (s.getRNG key).2.masterSeed = s.masterSeed)
    ∧ (∀ (s : MetroWeb.HSGWState) (m : ℤ), (s.setMasterSeed m).WF)
    ∧ (∀ (s : HSGState) (m : ℤ), (s.setMasterSeed m).WF) := by
  refine ⟨?_, ?_, ?_, ?_, ?_⟩
  · intro m key
    unfold HierarchicalSeedGenerator.generateSeed specFoldHash
    rw [foldl_hash_eq]
  · intro s cat hWF
    unfold MetroWeb.HSGWState.getSeed
    rcases hfind : cacheFind s.seedCache cat with _ | v
    · simp only [hfind]
      refine ⟨?_, ?_, ?_⟩
      · trivial
      · intro k v hkv
        simp only [List.mem_cons] at hkv
        rcases hkv with hkv | hkv
        · cases hkv; rfl
        · exact hWF k v hkv
      · trivial
    · simp only [hfind]
      refine ⟨?_, ?_, ?_⟩
      · exact hWF cat v (cacheFind_mem hfind)
      · exact hWF
      · trivial
  · intro s key hWF
    unfold HSGState.getRNG
    rcases hfind : cacheFind s.rngs key with _ | r
    · simp only [hfind]
      refine ⟨?_, ?_, ?_⟩
      · trivial
      · intro k rr hkr
        simp only [List.mem_cons] at hkr
        rcases hkr with hkr | hkr
        · cases hkr; rfl
        · exact hWF k rr hkr
      · trivial
    · simp only [hfind]
      refine ⟨?_, ?_, ?_⟩
      · exact hWF key r (cacheFind_mem hfind)
      · exact hWF
      · trivial
  · intro s m k v hkv
    exact absurd hkv (List.not_mem_nil _)
  · intro s m k r hkr
    exact absurd hkr (List.not_mem_nil _)

set_option maxRecDepth 4000 in
/-- Witness for C3 at concrete inputs: the empty cache after
`setMasterSeed(42)` satisfies the invariant, and `getSeed('zones')` then
returns the pure derivation. -/
theorem claim3_witness :
    (⟨42, []⟩ : MetroWeb.HSGWState).WF
    ∧ ((⟨42, []⟩ : MetroWeb.HSGWState).getSeed "zones").1 = MetroWeb.getSeedPure 42 "zones"
    ∧ MetroWeb.getSeedPure 42 "zones" = 453094025
    ∧ HierarchicalSeedGenerator.generateSeed 42 "zones" = (specFoldHash 42 "zones").natAbs := by
  have hWF : (⟨42, []⟩ : MetroWeb.HSGWState).WF := by
    intro k v hkv
    exact absurd hkv (List.not_mem_nil _)
  exact ⟨hWF,
    (claim3_deriveSeed_pure_and_cache_stable.2.1 ⟨42, []⟩ "zones" hWF).1,
    by decide,
    claim3_deriveSeed_pure_and_cache_stable.1 42 "zones"⟩

/-- C7, counterexample: with `population = 1000` and `citySize = 0` the
static generator raises no error and hands the caller a fully built
snapshot whose `area` is `0` — the zero-area output the claim says the
caller can never receive. -/
theorem claim7_counterexample :
    (MetroCityGenerator.simulateCity 1000 0 (SeededRandom.mk' 5)).area = 0
    ∧ (MetroCityGenerator.simulateCity 1000 0 (SeededRandom.mk' 5)).districts.length = 1 := by
  constructor
  · show (0 : ℚ) * 0 = 0
    norm_num
  · have h := MetroCityGenerator.genDistricts_length 1000 0
      ((max 1 (jsFloor ((1000 : ℚ) / 5000))).toNat)
      ((max 1 (jsFloor ((1000 : ℚ) / 5000))).toNat) (SeededRandom.mk' 5)
    calc (MetroCityGenerator.simulateCity 1000 0 (SeededRandom.mk' 5)).districts.length
        = (max 1 (jsFloor ((1000 : ℚ) / 5000))).toNat := h
      _ = 1 := by norm_num [jsFloor_eq_intFloor]

/-- C7, amended: `simulateCity` performs no input validation and has no
failure path — every call, including `population ≤ 0` or `citySize ≤ 0`,
returns a fully built snapshot with `area = citySize²` (zero or positive
when `citySize` is zero or negative, never rejected) and a district count
clamped to at least 1 by `Math.max(1, ...)`. -/
theorem claim7_amended (population : ℤ) (citySize : ℚ) (r : SeededRandom) :
    (MetroCityGenerator.simulateCity population citySize r).area = citySize * citySize
    ∧ (MetroCityGenerator.simulateCity population citySize r).districts.length
        = (max 1 (jsFloor ((population : ℚ) / 5000))).toNat
    ∧ 1 ≤ (MetroCityGenerator.simulateCity population citySize r).districts.length := by
  refine ⟨rfl, ?_, ?_⟩
  · exact MetroCityGenerator.genDistricts_length population citySize _ _ r
  · have h := MetroCityGenerator.genDistricts_length population citySize
      ((max 1 (jsFloor ((population : ℚ) / 5000))).toNat)
      ((max 1 (jsFloor ((population : ℚ) / 5000))).toNat) r
    have : (1 : ℕ) ≤ (max 1 (jsFloor ((population : ℚ) / 5000))).toNat := by
      have : (1 : ℤ) ≤ max 1 (jsFloor ((population : ℚ) / 5000)) := le_max_left _ _
      omega
    calc (1 : ℕ) ≤ (max 1 (jsFloor ((population : ℚ) / 5000))).toNat := this
      _ = (MetroCityGenerator.simulateCity population citySize r).districts.length := h.symm

/-- C10: every temporal snapshot's `area` is `max(1, population / 5000)`
computed from that year's (interpolated) population alone — the same value
for any two `citySize` arguments — whereas the static generator sets
`area = citySize²`; at the shared inputs `population = 50000`,
`citySize = 8` the temporal year-1500 snapshot reports area 10 while the
static snapshot reports 64. -/
theorem claim10_area_modes :
    (∀ (O : FloatOracle) (masterSeed : ℤ) (year : ℕ) (population : ℤ)
        (citySize : ℚ) (era : String),
        (MetroCityGenerator.generateCityStateForYear O masterSeed year population citySize era).area
          = max 1 ((population : ℚ) / 5000))
    ∧ (∀ (O : FloatOracle) (masterSeed : ℤ) (year : ℕ) (population : ℤ)
        (citySize1 citySize2 : ℚ) (era : String),
        (MetroCityGenerator.generateCityStateForYear O masterSeed year population citySize1 era).area
          = (MetroCityGenerator.generateCityStateForYear O masterSeed year population citySize2 era).area)
    ∧ (∀ (population : ℤ) (citySize : ℚ) (r : SeededRandom),
        (MetroCityGenerator.simulateCity population citySize r).area = citySize * citySize)
    ∧ (MetroCityGenerator.temporalStateAt trivialOracle 7 50000 8 1500).area = 10
    ∧ (MetroCityGenerator.simulateCity 50000 8 (SeededRandom.mk' 7)).area = 64
    ∧ (10 : ℚ) ≠ 64 := by
  refine ⟨fun _ _ _ _ _ _ => rfl, fun _ _ _ _ _ _ _ => rfl, fun _ _ _ => rfl, ?_, ?_, ?_⟩
  · simp only [MetroCityGenerator.temporalStateAt,
      MetroCityGenerator.generateCityStateForYear_area, eraFor_metroEras_1500]
    norm_num [jsFloor_eq_intFloor, max_def, min_def]
  · show (8 : ℚ) * 8 = 64
    norm_num
  · norm_num

/-- C1 (code_bug evaluation): the generation output is not a pure function
of `(masterSeed, population, citySize)`.  Temporal generation draws
key-point positions from the ambient `Math.random` stream — two runs that
differ only in that ambient stream produce different `key_points` — and
the fallback static generator stamps `generatedAt` from the wall clock, so
two runs at different instants differ there as well. -/
theorem claim1_output_depends_on_ambient_entropy :
    (MetroCityGenerator.simulateTemporalCity trivialOracle (fun _ => 0) 100 10 42).key_points
      ≠ (MetroCityGenerator.simulateTemporalCity trivialOracle (fun _ => 1/2) 100 10 42).key_points
    ∧ (MetroWeb.generateFallbackCity trivialOracle "2026-01-01T00:00:00.000Z" 42 1000 5).generatedAt
      ≠ (MetroWeb.generateFallbackCity trivialOracle "2026-01-01T00:00:01.000Z" 42 1000 5).generatedAt := by
  constructor
  · intro h
    have h2 := congrArg (List.map KeyPoint.x) h
    rw [MetroCityGenerator.simulateTemporalCity_key_points,
      MetroCityGenerator.simulateTemporalCity_key_points] at h2
    norm_num [MetroCityGenerator.generateKeyPoints, keyPointData,
      List.enum, List.enumFrom] at h2
  · decide

set_option maxRecDepth 8000 in
/-- C2 (code_bug evaluation): at `masterSeed = 1234567890`,
`population = 50000`, `citySize = 8`, the fallback generator's
`infrastructure.services` serializes as an object keyed by sub-type
(`hospitals`/`schools`/`policeStations`, here with 1, 2 and 3 entries) —
not as a flat list of `{x, y}` records. -/
theorem claim2_fallback_services_serialize_as_map :
    ((MetroWeb.generateFallbackCity trivialOracle "2026-01-01T00:00:00.000Z"
        1234567890 50000 8).infrastructure.services.toJson.isArr = false)
    ∧ ((MetroWeb.generateFallbackCity trivialOracle "2026-01-01T00:00:00.000Z"
        1234567890 50000 8).infrastructure.services.toJson.topKeys
          = ["hospitals", "schools", "policeStations"])
    ∧ ((MetroWeb.generateFallbackCity trivialOracle "2026-01-01T00:00:00.000Z"
        1234567890 50000 8).infrastructure.services.toJson.isPointList = false)
    ∧ ((MetroWeb.generateFallbackCity trivialOracle "2026-01-01T00:00:00.000Z"
        1234567890 50000 8).infrastructure.services.hospitals.length = 1
       ∧ (MetroWeb.generateFallbackCity trivialOracle "2026-01-01T00:00:00.000Z"
          1234567890 50000 8).infrastructure.services.schools.length = 2
       ∧ (MetroWeb.generateFallbackCity trivialOracle "2026-01-01T00:00:00.000Z"
          1234567890 50000 8).infrastructure.services.policeStations.length = 3) := by
  have hseed : MetroWeb.getSeedPure 1234567890 "infrastructure" = 1989660926 := by decide
  have hcount : (jsFloor ((8 : ℚ) / 2)
      + ((⟨1989660926⟩ : MetroWeb.SeededRandomW).nextInt 2 8).1).toNat = 8 := by
    norm_num [MetroWeb.SeededRandomW.nextInt, MetroWeb.SeededRandomW.nextFloat,
      MetroWeb.SeededRandomW.next, jsFloor_eq_intFloor]
    decide
  have hroads : (MetroWeb.generateRoads 8 (⟨1989660926⟩ : MetroWeb.SeededRandomW)).2
      = (⟨355060504⟩ : MetroWeb.SeededRandomW) := by
    show (MetroWeb.genWebRoads 8
      ((jsFloor ((8 : ℚ) / 2) + ((⟨1989660926⟩ : MetroWeb.SeededRandomW).nextInt 2 8).1).toNat)
      ((⟨1989660926⟩ : MetroWeb.SeededRandomW).nextInt 2 8).2).2
      = (⟨355060504⟩ : MetroWeb.SeededRandomW)
    rw [hcount]
    rw [show ((⟨1989660926⟩ : MetroWeb.SeededRandomW).nextInt 2 8).2
        = (⟨676285561⟩ : MetroWeb.SeededRandomW) by decide]
    simp only [MetroWeb.genWebRoads, MetroWeb.genWebRoad_snd]
    decide
  have hn1 : ((⟨355060504⟩ : MetroWeb.SeededRandomW).nextInt 1 4).1.toNat = 3 := by
    norm_num [MetroWeb.SeededRandomW.nextInt, MetroWeb.SeededRandomW.nextFloat,
      MetroWeb.SeededRandomW.next, jsFloor_eq_intFloor]
    decide
  have hutils : (MetroWeb.generateUtilities 8 (⟨355060504⟩ : MetroWeb.SeededRandomW)).2
      = (⟨1365932148⟩ : MetroWeb.SeededRandomW) := by
    show (MetroWeb.genUtilityStations 8 50 200
      (((MetroWeb.genUtilityStations 8 100 500
          ((⟨355060504⟩ : MetroWeb.SeededRandomW).nextInt 1 4).1.toNat
          ((⟨355060504⟩ : MetroWeb.SeededRandomW).nextInt 1 4).2).2.nextInt 1 3).1.toNat)
      ((MetroWeb.genUtilityStations 8 100 500
          ((⟨355060504⟩ : MetroWeb.SeededRandomW).nextInt 1 4).1.toNat
          ((⟨355060504⟩ : MetroWeb.SeededRandomW).nextInt 1 4).2).2.nextInt 1 3).2).2
      = (⟨1365932148⟩ : MetroWeb.SeededRandomW)
    rw [hn1]
    rw [show ((⟨355060504⟩ : MetroWeb.SeededRandomW).nextInt 1 4).2
        = (⟨1272317600⟩ : MetroWeb.SeededRandomW) by decide]
    rw [show (MetroWeb.genUtilityStations 8 100 500 3 (⟨1272317600⟩ : MetroWeb.SeededRandomW)).2
        = (⟨213802372⟩ : MetroWeb.SeededRandomW) by decide]
    have hn2 : ((⟨213802372⟩ : MetroWeb.SeededRandomW).nextInt 1 3).1.toNat = 3 := by
      norm_num [MetroWeb.SeededRandomW.nextInt, MetroWeb.SeededRandomW.nextFloat,
        MetroWeb.SeededRandomW.next, jsFloor_eq_intFloor]
      decide
    rw [hn2]
    rw [show ((⟨213802372⟩ : MetroWeb.SeededRandomW).nextInt 1 3).2
        = (⟨1564660330⟩ : MetroWeb.SeededRandomW) by decide]
    decide
  have hsv : (MetroWeb.generateInfrastructure 1234567890 50000 8).services
      = (MetroWeb.generateServices 8 (⟨1365932148⟩ : MetroWeb.SeededRandomW)).1 := by
    show (MetroWeb.generateServices 8
      (MetroWeb.generateUtilities 8
        (MetroWeb.generateRoads 8
          (⟨MetroWeb.getSeedPure 1234567890 "infrastructure"⟩ : MetroWeb.SeededRandomW)).2).2).1
      = (MetroWeb.generateServices 8 (⟨1365932148⟩ : MetroWeb.SeededRandomW)).1
    rw [hseed, hroads, hutils]
  have hnh : ((⟨1365932148⟩ : MetroWeb.SeededRandomW).nextInt 1 3).1.toNat = 1 := by
    norm_num [MetroWeb.SeededRandomW.nextInt, MetroWeb.SeededRandomW.nextFloat,
      MetroWeb.SeededRandomW.next, jsFloor_eq_intFloor]
  have hnh2 : ((⟨1365932148⟩ : MetroWeb.SeededRandomW).nextInt 1 3).2
      = (⟨238645496⟩ : MetroWeb.SeededRandomW) := by decide
  have hhs : (MetroWeb.genWebHospitals 8 1 (⟨238645496⟩ : MetroWeb.SeededRandomW)).2
      = (⟨1346723200⟩ : MetroWeb.SeededRandomW) := by decide
  have hns : ((⟨1346723200⟩ : MetroWeb.SeededRandomW).nextInt 2 6).1.toNat = 2 := by
    norm_num [MetroWeb.SeededRandomW.nextInt, MetroWeb.SeededRandomW.nextFloat,
      MetroWeb.SeededRandomW.next, jsFloor_eq_intFloor]
    decide
  have hns2 : ((⟨1346723200⟩ : MetroWeb.SeededRandomW).nextInt 2 6).2
      = (⟨348495979⟩ : MetroWeb.SeededRandomW) := by decide
  have hss : (MetroWeb.genWebSchools 8 2 (⟨348495979⟩ : MetroWeb.SeededRandomW)).2
      = (⟨1785166276⟩ : MetroWeb.SeededRandomW) := by decide
  have hnp : ((⟨1785166276⟩ : MetroWeb.SeededRandomW).nextInt 1 4).1.toNat = 3 := by
    norm_num [MetroWeb.SeededRandomW.nextInt, MetroWeb.SeededRandomW.nextFloat,
      MetroWeb.SeededRandomW.next, jsFloor_eq_intFloor]
    decide
  have hosp : (MetroWeb.generateServices 8 (⟨1365932148⟩ : MetroWeb.SeededRandomW)).1.hospitals.length = 1 := by
    show (MetroWeb.genWebHospitals 8
      ((⟨1365932148⟩ : MetroWeb.SeededRandomW).nextInt 1 3).1.toNat
      ((⟨1365932148⟩ : MetroWeb.SeededRandomW).nextInt 1 3).2).1.length = 1
    rw [hnh]
    exact MetroWeb.genWebHospitals_length 8 1 _
  have hsch : (MetroWeb.generateServices 8 (⟨1365932148⟩ : MetroWeb.SeededRandomW)).1.schools.length = 2 := by
    show (MetroWeb.genWebSchools 8
      (((MetroWeb.genWebHospitals 8
          ((⟨1365932148⟩ : MetroWeb.SeededRandomW).nextInt 1 3).1.toNat
          ((⟨1365932148⟩ : MetroWeb.SeededRandomW).nextInt 1 3).2).2.nextInt 2 6).1.toNat)
      ((MetroWeb.genWebHospitals 8
          ((⟨1365932148⟩ : MetroWeb.SeededRandomW).nextInt 1 3).1.toNat
          ((⟨1365932148⟩ : MetroWeb.SeededRandomW).nextInt 1 3).2).2.nextInt 2 6).2).1.length = 2
    rw [hnh, hnh2, hhs, hns]
    exact MetroWeb.genWebSchools_length 8 2 _
  have hpol : (MetroWeb.generateServices 8 (⟨1365932148⟩ : MetroWeb.SeededRandomW)).1.policeStations.length = 3 := by
    show (MetroWeb.genWebPolice 8
      (((MetroWeb.genWebSchools 8
          (((MetroWeb.genWebHospitals 8
              ((⟨1365932148⟩ : MetroWeb.SeededRandomW).nextInt 1 3).1.toNat
              ((⟨1365932148⟩ : MetroWeb.SeededRandomW).nextInt 1 3).2).2.nextInt 2 6).1.toNat)
          ((MetroWeb.genWebHospitals 8
              ((⟨1365932148⟩ : MetroWeb.SeededRandomW).nextInt 1 3).1.toNat
              ((⟨1365932148⟩ : MetroWeb.SeededRandomW).nextInt 1 3).2).2.nextInt 2 6).2).2.nextInt 1 4).1.toNat)
      ((MetroWeb.genWebSchools 8
          (((MetroWeb.genWebHospitals 8
              ((⟨1365932148⟩ : MetroWeb.SeededRandomW).nextInt 1 3).1.toNat
              ((⟨1365932148⟩ : MetroWeb.SeededRandomW).nextInt 1 3).2).2.nextInt 2 6).1.toNat)
          ((MetroWeb.genWebHospitals 8
              ((⟨1365932148⟩ : MetroWeb.SeededRandomW).nextInt 1 3).1.toNat
              ((⟨1365932148⟩ : MetroWeb.SeededRandomW).nextInt 1 3).2).2.nextInt 2 6).2).2.nextInt 1 4).2).1.length = 3
    rw [hnh, hnh2, hhs, hns, hns2, hss, hnp]
    exact MetroWeb.genWebPolice_length 8 3 _
  refine ⟨rfl, rfl, rfl, ?_, ?_, ?_⟩
  · show (MetroWeb.generateInfrastructure 1234567890 50000 8).services.hospitals.length = 1
    rw [hsv]; exact hosp
  · show (MetroWeb.generateInfrastructure 1234567890 50000 8).services.schools.length = 2
    rw [hsv]; exact hsch
  · show (MetroWeb.generateInfrastructure 1234567890 50000 8).services.policeStations.length = 3
    rw [hsv]; exact hpol

/-- C8, counterexample: `choice` on the empty sequence does not fail — the
JS expression evaluates `array[index]` to `undefined` (modelled `none`),
returns it as an ordinary value, and still advances the stream. -/
theorem claim8_counterexample :
    (SeededRandom.choice (SeededRandom.mk' 42) ([] : List ℚ)).1 = none
    ∧ (SeededRandom.choice (SeededRandom.mk' 42) ([] : List ℚ)).2
        = (SeededRandom.mk' 42).next.2 := by
  constructor
  · exact jsIndex_nil _
  · rfl

/-- C8, amended: `choice(sequence)` returns `sequence[floor(next() *
length)]`; for a non-empty sequence the index is always in range and an
element is returned, while for the empty sequence the JS `undefined`
(`none`) is returned, with no error raised in either case; there is no
other failure mode. -/
theorem claim8_amended {α : Type} (l : List α) (r : SeededRandom) :
    (l = [] → (r.choice l).1 = none)
    ∧ (l ≠ [] → ∃ (h : (jsFloor (r.next.1 * l.length)).toNat < l.length),
        (r.choice l).1
          = some (l.get ⟨(jsFloor (r.next.1 * l.length)).toNat, h⟩)) := by
  constructor
  · intro hl
    subst hl
    exact jsIndex_nil _
  · exact SeededRandom.choice_eq_some r l

/-- Witness for C8 at a concrete input: the two-element sequence is
non-empty and `choice` returns the element at the drawn index. -/
theorem claim8_witness :
    (["a", "b"] : List String) ≠ []
    ∧ ∃ (h : (jsFloor ((SeededRandom.mk' 0).next.1
          * ((["a", "b"] : List String).length : ℚ))).toNat
            < (["a", "b"] : List String).length),
        ((SeededRandom.mk' 0).choice ["a", "b"]).1
          = some ((["a", "b"] : List String).get
              ⟨(jsFloor ((SeededRandom.mk' 0).next.1
                  * ((["a", "b"] : List String).length : ℚ))).toNat, h⟩) :=
  ⟨by simp, (claim8_amended ["a", "b"] (SeededRandom.mk' 0)).2 (by simp)⟩

/-- C4, counterexample: year 0 falls in the `Founding` era and year 100 in
the `Growth` era, `temple` is in the Founding service vocabulary and is
actually produced there (stream state 0 draws it), yet no Growth-era run
can ever produce a `temple` — so the producible service-type set does not
grow monotonically with the era. -/
theorem claim4_counterexample :
    (eraFor (metroEras 100000) 0).name = "Founding"
    ∧ (eraFor (metroEras 100000) 100).name = "Growth"
    ∧ "temple" ∈ MetroCityGenerator.serviceTypesForEra "Founding"
    ∧ (MetroCityGenerator.generateServicesForEra "Founding" 100 10
        (SeededRandom.mk' 0)).1.map Service.type = ["temple"]
    ∧ (∀ r : SeededRandom,
        "temple" ∉ (MetroCityGenerator.generateServicesForEra "Growth" 100 10 r).1.map Service.type) := by
  refine ⟨rfl, rfl, by decide, ?_, ?_⟩
  · have hns : (max 1 (jsFloor ((100 : ℚ) / 10000))).toNat = 1 := by
      norm_num [jsFloor_eq_intFloor]
    show (MetroCityGenerator.genTemporalServices "Founding" 10
      ((max 1 (jsFloor ((100 : ℚ) / 10000))).toNat)
      ((max 1 (jsFloor ((100 : ℚ) / 10000))).toNat) (SeededRandom.mk' 0)).1.map Service.type
      = ["temple"]
    rw [hns]
    simp only [MetroCityGenerator.genTemporalServices, MetroCityGenerator.genTemporalService,
      List.map_cons, List.map_nil]
    rw [show MetroCityGenerator.serviceTypesForEra "Founding" = ["market", "temple"] from rfl]
    norm_num [SeededRandom.choiceD, SeededRandom.choice, SeededRandom.uniform,
      SeededRandom.next, SeededRandom.mk', jsIndex, jsFloor_eq_intFloor]
  · intro r ht
    rw [List.mem_map] at ht
    obtain ⟨s, hs, hst⟩ := ht
    have hmem : s.type ∈ MetroCityGenerator.serviceTypesForEra "Growth" :=
      MetroCityGenerator.genTemporalServices_types "Growth" 10 _ _ r s hs
    rw [hst] at hmem
    rw [show MetroCityGenerator.serviceTypesForEra "Growth"
        = ["hospital", "school", "market"] from rfl] at hmem
    simp at hmem

/-- C4, amended: the per-era service vocabularies are fixed finite lists
(Founding `{market, temple}`, Growth `{hospital, school, market}`,
Expansion `{hospital, school, police, fire, monument}`, Modernization
adding `{airport, stadium}`), every generated service's type lies in its
era's vocabulary, and the vocabulary grows monotonically only from
Expansion to Modernization: `temple` is dropped after Founding and
`market` after Growth, so Founding ⊄ Growth and Growth ⊄ Expansion. -/
theorem claim4_amended :
    MetroCityGenerator.serviceTypesForEra "Founding" = ["market", "temple"]
    ∧ MetroCityGenerator.serviceTypesForEra "Growth" = ["hospital", "school", "market"]
    ∧ MetroCityGenerator.serviceTypesForEra "Expansion"
        = ["hospital", "school", "police", "fire", "monument"]
    ∧ MetroCityGenerator.serviceTypesForEra "Modernization"
        = ["hospital", "school", "police", "fire", "monument", "airport", "stadium"]
    ∧ (∀ t ∈ MetroCityGenerator.serviceTypesForEra "Expansion",
        t ∈ MetroCityGenerator.serviceTypesForEra "Modernization")
    ∧ ¬(∀ t ∈ MetroCityGenerator.serviceTypesForEra "Founding",
        t ∈ MetroCityGenerator.serviceTypesForEra "Growth")
    ∧ ¬(∀ t ∈ MetroCityGenerator.serviceTypesForEra "Growth",
        t ∈ MetroCityGenerator.serviceTypesForEra "Expansion")
    ∧ (∀ (era : String) (population : ℤ) (citySize : ℚ) (r : SeededRandom),
        ∀ s ∈ (MetroCityGenerator.generateServicesForEra era population citySize r).1,
          s.type ∈ MetroCityGenerator.serviceTypesForEra era) := by
  refine ⟨rfl, rfl, rfl, rfl, by decide, by decide, by decide, ?_⟩
  intro era population citySize r s hs
  exact MetroCityGenerator.genTemporalServices_types era citySize _ _ r s hs

/-- Witness for C4 at a concrete input: `police` is in the Expansion
vocabulary, and by the monotone Expansion-to-Modernization inclusion it is
in the Modernization vocabulary. -/
theorem claim4_witness :
    "police" ∈ MetroCityGenerator.serviceTypesForEra "Expansion"
    ∧ "police" ∈ MetroCityGenerator.serviceTypesForEra "Modernization" :=
  ⟨by decide, claim4_amended.2.2.2.2.1 "police" (by decide)⟩

/-- C5: the temporal generator produces exactly 31 snapshots with year
fields `[0, 50, ..., 1500]` in strictly increasing order; each snapshot's
`era` tag is the name of the era-table row whose `[start, stop)` window
contains its year, with the last row used as the open-ended default; in
particular year 1500 is tagged `Modernization`, and for any era table any
year no row covers is assigned the last row. -/
theorem claim5_timeline_structure :
    (∀ (O : FloatOracle) (ent : ℕ → ℚ) (population : ℤ) (citySize : ℚ) (masterSeed : ℤ),
        (MetroCityGenerator.simulateTemporalCity O ent population citySize masterSeed).timeline.map
            CityState.year
          = [0, 50, 100, 150, 200, 250, 300, 350, 400, 450, 500, 550, 600, 650, 700, 750,
             800, 850, 900, 950, 1000, 1050, 1100, 1150, 1200, 1250, 1300, 1350, 1400, 1450, 1500]
        ∧ (MetroCityGenerator.simulateTemporalCity O ent population citySize masterSeed).timeline.length = 31
        ∧ List.Chain' (· < ·)
            ((MetroCityGenerator.simulateTemporalCity O ent population citySize masterSeed).timeline.map
              CityState.year)
        ∧ ∀ st ∈ (MetroCityGenerator.simulateTemporalCity O ent population citySize masterSeed).timeline,
            st.era = (eraFor (metroEras population) st.year).name)
    ∧ (∀ p : ℤ, (eraFor (metroEras p) 1500).name = "Modernization")
    ∧ (∀ (eras : List Era) (y : ℕ) (hne : eras ≠ []),
        (∀ e ∈ eras, ¬(e.start ≤ y ∧ y < e.stop)) → eraFor eras y = eras.getLast hne) := by
  have hyears : MetroCityGenerator.temporalYears
      = [0, 50, 100, 150, 200, 250, 300, 350, 400, 450, 500, 550, 600, 650, 700, 750,
         800, 850, 900, 950, 1000, 1050, 1100, 1150, 1200, 1250, 1300, 1350, 1400, 1450, 1500] := by
    decide
  refine ⟨?_, ?_, ?_⟩
  · intro O ent population citySize masterSeed
    have hmap : (MetroCityGenerator.simulateTemporalCity O ent population citySize masterSeed).timeline.map
        CityState.year = MetroCityGenerator.temporalYears := by
      rw [MetroCityGenerator.simulateTemporalCity_timeline, List.map_map]
      have : (CityState.year ∘ MetroCityGenerator.temporalStateAt O masterSeed population citySize)
          = id := by
        funext y
        exact MetroCityGenerator.temporalStateAt_year O masterSeed population citySize y
      rw [this, List.map_id]
    refine ⟨by rw [hmap, hyears], ?_, ?_, ?_⟩
    · have := congrArg List.length hmap
      rw [List.length_map] at this
      rw [this, hyears]
      rfl
    · rw [hmap, hyears]
      simp only [List.chain'_cons, List.chain'_singleton, and_true]
      omega
    · intro st hst
      rw [MetroCityGenerator.simulateTemporalCity_timeline] at hst
      obtain ⟨y, _, rfl⟩ := List.mem_map.mp hst
      rw [MetroCityGenerator.temporalStateAt_year]
      exact MetroCityGenerator.temporalStateAt_era O masterSeed population citySize y
  · intro p
    rfl
  · intro eras y hne hnone
    unfold eraFor
    have hfind : eras.find? (fun e => decide (e.start ≤ y ∧ y < e.stop)) = none := by
      rw [List.find?_eq_none]
      intro e he
      simpa using hnone e he
    rw [hfind]
    simp [List.getLastD_eq_getLast?, List.getLast?_eq_getLast eras hne]

/-- Witness for C5 at concrete inputs: the year-0 snapshot is in the
timeline and carries the era name the table assigns to year 0, and year
2000 (covered by no row of the table for population 70) is assigned the
last era. -/
theorem claim5_witness :
    MetroCityGenerator.temporalStateAt trivialOracle 3 70 4 0
      ∈ (MetroCityGenerator.simulateTemporalCity trivialOracle (fun _ => 0) 70 4 3).timeline
    ∧ (MetroCityGenerator.temporalStateAt trivialOracle 3 70 4 0).era
        = (eraFor (metroEras 70) (MetroCityGenerator.temporalStateAt trivialOracle 3 70 4 0).year).name
    ∧ metroEras 70 ≠ []
    ∧ (∀ e ∈ metroEras 70, ¬(e.start ≤ 2000 ∧ 2000 < e.stop))
    ∧ eraFor (metroEras 70) 2000 = (metroEras 70).getLast (by simp [metroEras]) := by
  have hmem : MetroCityGenerator.temporalStateAt trivialOracle 3 70 4 0
      ∈ (MetroCityGenerator.simulateTemporalCity trivialOracle (fun _ => 0) 70 4 3).timeline := by
    rw [MetroCityGenerator.simulateTemporalCity_timeline]
    exact List.mem_map_of_mem _ (by decide)
  refine ⟨hmem, ?_, by simp [metroEras], by decide, ?_⟩
  · exact (claim5_timeline_structure.1 trivialOracle (fun _ => 0) 70 4 3).2.2.2 _ hmem
  · exact claim5_timeline_structure.2.2 (metroEras 70) 2000 (by simp [metroEras]) (by decide)

/-- The cumulative-weight loop only ever returns the default or one of the
listed zone names. -/
lemma MetroWeb.selectZoneTypeGo_mem (u : ℚ) :
    ∀ (l : List (String × ℚ)) (c : ℚ),
      MetroWeb.selectZoneTypeGo u l c ∈ "Residential" :: l.map Prod.fst := by
  intro l
  induction l with
  | nil => intro c; simp [MetroWeb.selectZoneTypeGo]
  | cons p rest ih =>
      intro c
      obtain ⟨z, w⟩ := p
      simp only [MetroWeb.selectZoneTypeGo, List.map_cons]
      rcases em (u ≤ c + w) with h | h
      · rw [if_pos h]
        simp
      · rw [if_neg h]
        rcases List.mem_cons.mp (ih (c + w)) with h2 | h2
        · simp [h2]
        · simp [List.mem_cons_of_mem, h2]

/-- The zone-type selection rule as the claim words it ("the first bucket
whose cumulative weight exceeds the draw wins, ... default to
Residential"): cumulative weights with a strict comparison.  Stated from
the claim's words, for comparison with the source's `selectZoneTypeGo`. -/
def specWeightedZoneTypeGo (u : ℚ) : List (String × ℚ) → ℚ → String
  | [], _ => "Residential"
  | (z, w) :: rest, cumulative =>
      let c := cumulative + w
      if c > u then z else specWeightedZoneTypeGo u rest c

/-- The claim's weighted zone-type rule applied to the weight table. -/
def specWeightedZoneType (u : ℚ) : String :=
  specWeightedZoneTypeGo u MetroWeb.zoneWeights 0

/-- C9, counterexample: in the main static generator (`part_010`
`simulateCity`) the sole district of a 5000-population city at master
stream state 16 comes out `commercial`, although the claim's weighted
cumulative rule applied to the very draw that decides the type (≈ 0.26,
below the 0.40 Residential bucket) would select `Residential`: static
district types are drawn uniformly, not by the weighted rule. -/
theorem claim9_counterexample :
    (MetroCityGenerator.simulateCity 5000 10 (SeededRandom.mk' 16)).districts.map District.type
      = ["commercial"]
    ∧ specWeightedZoneType ((SeededRandom.mk' 16).next.2.next.2.next.2.next.1) = "Residential"
    ∧ ("commercial" : String) ≠ "Residential" := by
  refine ⟨?_, ?_, by decide⟩
  · have hc : (max 1 (jsFloor ((5000 : ℚ) / 5000))).toNat = 1 := by
      norm_num [jsFloor_eq_intFloor]
    show (MetroCityGenerator.genDistricts 5000 10
      ((max 1 (jsFloor ((5000 : ℚ) / 5000))).toNat)
      ((max 1 (jsFloor ((5000 : ℚ) / 5000))).toNat) (SeededRandom.mk' 16)).1.map District.type
      = ["commercial"]
    rw [hc]
    simp only [MetroCityGenerator.genDistricts, MetroCityGenerator.genDistrict,
      List.map_cons, List.map_nil]
    norm_num [SeededRandom.choiceD, SeededRandom.choice, SeededRandom.uniform,
      SeededRandom.next, SeededRandom.mk', jsIndex, jsFloor_eq_intFloor]
  · norm_num [specWeightedZoneType, specWeightedZoneTypeGo, MetroWeb.zoneWeights,
      SeededRandom.next, SeededRandom.mk']

/-- C9, amended: the weighted cumulative selection with weights Residential
0.40 / Commercial 0.25 / Industrial 0.20 / Mixed 0.15 (first bucket whose
cumulative weight is at least the draw, Residential if none) governs only
the `metro-web.js` fallback generator's `selectZoneType`, whose result is
always one of the four capitalized names; the main static generator draws
district types uniformly from the four lowercase names. -/
theorem claim9_amended :
    (∀ u : ℚ,
        MetroWeb.selectZoneTypeGo u MetroWeb.zoneWeights 0
          = if u ≤ 2/5 then "Residential"
            else if u ≤ 13/20 then "Commercial"
            else if u ≤ 17/20 then "Industrial"
            else if u ≤ 1 then "Mixed"
            else "Residential")
    ∧ (∀ r : MetroWeb.SeededRandomW,
        (MetroWeb.selectZoneType r).1
          ∈ (["Residential", "Commercial", "Industrial", "Mixed"] : List String))
    ∧ (∀ (population : ℤ) (citySize : ℚ) (r : SeededRandom) (i : ℕ),
        ((MetroCityGenerator.simulateCity population citySize r).districts.map
            District.type).getD i "residential"
          ∈ (["residential", "commercial", "industrial", "mixed"] : List String)) := by
  refine ⟨?_, ?_, ?_⟩
  · intro u
    simp only [MetroWeb.selectZoneTypeGo, MetroWeb.zoneWeights]
    rcases em (u ≤ 2/5) with h1 | h1
    · rw [if_pos (by linarith : u ≤ 0 + 2/5), if_pos h1]
    · rw [if_neg (by linarith : ¬u ≤ 0 + 2/5), if_neg h1]
      rcases em (u ≤ 13/20) with h2 | h2
      · rw [if_pos (by linarith : u ≤ 0 + 2/5 + 1/4), if_pos h2]
      · rw [if_neg (by linarith : ¬u ≤ 0 + 2/5 + 1/4), if_neg h2]
        rcases em (u ≤ 17/20) with h3 | h3
        · rw [if_pos (by linarith : u ≤ 0 + 2/5 + 1/4 + 1/5), if_pos h3]
        · rw [if_neg (by linarith : ¬u ≤ 0 + 2/5 + 1/4 + 1/5), if_neg h3]
          rcases em (u ≤ 1) with h4 | h4
          · rw [if_pos (by linarith : u ≤ 0 + 2/5 + 1/4 + 1/5 + 3/20), if_pos h4]
          · rw [if_neg (by linarith : ¬u ≤ 0 + 2/5 + 1/4 + 1/5 + 3/20), if_neg h4]
  · intro r
    show MetroWeb.selectZoneTypeGo (r.nextFloat 0 1).1 MetroWeb.zoneWeights 0
      ∈ (["Residential", "Commercial", "Industrial", "Mixed"] : List String)
    have ht := MetroWeb.selectZoneTypeGo_mem (r.nextFloat 0 1).1 MetroWeb.zoneWeights 0
    revert ht
    generalize MetroWeb.selectZoneTypeGo (r.nextFloat 0 1).1 MetroWeb.zoneWeights 0 = t
    intro ht
    simp only [MetroWeb.zoneWeights, List.map_cons, List.map_nil, List.mem_cons,
      List.not_mem_nil, or_false] at ht
    rcases ht with h | h | h | h | h <;> simp [h]
  · intro population citySize r i
    have hty : ∀ t ∈ (MetroCityGenerator.simulateCity population citySize r).districts.map
        District.type, t ∈ (["residential", "commercial", "industrial", "mixed"] : List String) := by
      intro t ht
      obtain ⟨d, hd, rfl⟩ := List.mem_map.mp ht
      exact MetroCityGenerator.genDistricts_types population citySize _ _ r d hd
    rcases hlt : ((MetroCityGenerator.simulateCity population citySize r).districts.map
        District.type)[i]? with _ | t
    · rw [List.getD_eq_getElem?_getD, hlt]
      simp
    · rw [List.getD_eq_getElem?_getD, hlt]
      simpa using hty t (by
        have hi : i < ((MetroCityGenerator.simulateCity population citySize r).districts.map
            District.type).length := by
          by_contra hc
          push_neg at hc
          simp [List.getElem?_eq_none hc] at hlt
        rw [List.getElem?_eq_getElem hi] at hlt
        cases hlt
        exact List.getElem_mem hi)

end Metro
